import Mathlib

/-! go-tracker: query encoding and the connection pipeline.

A shallow embedding of `query.go`, `connection.go`, `client.go` and
`project_client.go`, with the records of `resources.go` they use.

Go strings are modelled by Lean strings (valid UTF-8 text), Go's `int` and
`int64` by `Int`.  The standard-library functions the code calls
(`url.Values`, `strings.Join`, `fmt.Sprintf("%d")`, `time.Time.Format`,
`strconv.Atoi`, `http.Header.Get`, `http.NewRequest`, the scanner and the
string encoding of `encoding/json`) are modelled here after their behaviour; the functions of the repository are translated line by line.
-/

namespace Tracker

/-! ## strings, fmt -/

/-- Go `strings.Join(elems, sep)`: the elements in order, `sep` between
consecutive ones. -/
def stringsJoin : List String → String → String
  | [], _ => ""
  | a :: rest, sep => rest.foldl (fun b s => b ++ sep ++ s) a

/-- Decimal digits of a natural number, most significant first, built with
the given fuel (`n + 1` always suffices). -/
def natDigits : Nat → Nat → List Char
  | 0, _ => []
  | fuel + 1, n =>
    if n < 10 then [Char.ofNat (48 + n)]
    else natDigits fuel (n / 10) ++ [Char.ofNat (48 + n % 10)]

/-- Go `fmt.Sprintf("%d", n)` for a natural number. -/
def sprintNat (n : Nat) : String := ⟨natDigits (n + 1) n⟩

/-- Go `fmt.Sprintf("%d", n)`: decimal rendering, `-` in front of a negative
number. -/
def sprintInt : Int → String
  | Int.ofNat n => sprintNat n
  | Int.negSucc n => "-" ++ sprintNat (n + 1)

/-! ## net/url -/

/-- The UTF-8 bytes of a character. -/
def utf8Bytes (c : Char) : List Nat :=
  let n := c.toNat
  if n < 0x80 then [n]
  else if n < 0x800 then [0xC0 + n / 64, 0x80 + n % 64]
  else if n < 0x10000 then [0xE0 + n / 4096, 0x80 + n / 64 % 64, 0x80 + n % 64]
  else [0xF0 + n / 262144, 0x80 + n / 4096 % 64, 0x80 + n / 64 % 64, 0x80 + n % 64]

/-- One upper-case hexadecimal digit (`"0123456789ABCDEF"[d]`). -/
def upperhex (d : Nat) : Char :=
  if d < 10 then Char.ofNat (48 + d) else Char.ofNat (55 + d)

/-- Go `url.shouldEscape(c, encodeQueryComponent)`: only the unreserved
characters (letters, digits, `-`, `_`, `.`, `~`) are left alone. -/
def shouldEscape (c : Char) : Bool :=
  !(c.isAlphanum || c = '-' || c = '_' || c = '.' || c = '~')

/-- The escaped form of one character in a query component: a space becomes
`+`, an unreserved character stays, every other byte becomes `%XX`. -/
def escapeChar (c : Char) : List Char :=
  if c = ' ' then ['+']
  else if shouldEscape c then
    (utf8Bytes c).flatMap (fun b => ['%', upperhex (b / 16), upperhex (b % 16)])
  else [c]

/-- Go `url.QueryEscape(s)`. -/
def QueryEscape (s : String) : String := ⟨s.data.flatMap escapeChar⟩

/-- Go `url.Values` (`map[string][]string`): a finite map from keys to lists
of values, kept as an association list with at most one entry per key. The
order of the entries is the order in which the keys were first set; no
operation of the program observes it (`Encode` sorts the keys). -/
abbrev Values := List (String × List String)

/-- The empty parameter set, `url.Values{}`. -/
def Values.empty : Values := []

/-- The map lookup `v[key]`. -/
def Values.lookup (v : Values) (key : String) : Option (List String) :=
  match v with
  | [] => none
  | (k, vs) :: rest => if k = key then some vs else Values.lookup rest key

/-- Go `Values.Set(key, value)`: `v[key] = []string{value}`, replacing what
the key held before. -/
def Values.Set (v : Values) (key value : String) : Values :=
  match v with
  | [] => [(key, [value])]
  | (k, vs) :: rest =>
    if k = key then (k, [value]) :: rest else (k, vs) :: Values.Set rest key value

/-- Go `Values.Get(key)`: the first value of the key, `""` when there is
none. -/
def Values.Get (v : Values) (key : String) : String :=
  match Values.lookup v key with
  | some (x :: _) => x
  | _ => ""

/-- The keys of the map. -/
def Values.keys (v : Values) : List String := v.map Prod.fst

/-- Lexicographic comparison `a ≤ b` of two character sequences by code
point, which for UTF-8 text is Go's bytewise string comparison. -/
def bytesLe : List Char → List Char → Bool
  | [], _ => true
  | _ :: _, [] => false
  | a :: as, b :: bs =>
    if a.toNat < b.toNat then true
    else if b.toNat < a.toNat then false
    else bytesLe as bs

/-- Go's string order `a <= b`. -/
def strLe (a b : String) : Prop := bytesLe a.data b.data = true

instance strLe.decidable : DecidableRel strLe :=
  fun a b => inferInstanceAs (Decidable (bytesLe a.data b.data = true))

/-- The keys of the map in ascending order (`sort.Strings(keys)`). -/
def Values.sortedKeys (v : Values) : List String :=
  (Values.keys v).insertionSort strLe

/-- The inner loop of `Values.Encode` for one key: every value of the key is
written as `key=value`, with `&` in front unless the buffer is still empty. -/
def Values.encodeKey (buf keyEscaped : String) (vs : List String) : String :=
  vs.foldl (fun buf x =>
    let buf := if buf.length > 0 then buf ++ "&" else buf
    buf ++ keyEscaped ++ "=" ++ QueryEscape x) buf

/-- Go `Values.Encode()`: the URL-encoded form `bar=baz&foo=quux`, sorted by
key. -/
def Values.Encode (v : Values) : String :=
  (Values.sortedKeys v).foldl (fun buf k =>
    Values.encodeKey buf (QueryEscape k) ((Values.lookup v k).getD [])) ""

/-- The loop of `Values.Encode` over a list of ready `key=value` segments:
each is written to the buffer, with `&` in front unless the buffer is still
empty. -/
def joinAmp (buf : String) (parts : List String) : String :=
  parts.foldl (fun buf p => (if buf.length > 0 then buf ++ "&" else buf) ++ p) buf

/-- The `key=value` segments of the encoded form, in the order in which
`Values.Encode` writes them: by ascending key, and for one key in the order
of its values. -/
def Values.encodeParts (v : Values) : List String :=
  (Values.sortedKeys v).flatMap (fun k =>
    ((Values.lookup v k).getD []).map (fun x => QueryEscape k ++ "=" ++ QueryEscape x))

/-- Strictly ascending in Go's string order. -/
def strLt (a b : String) : Prop := strLe a b ∧ a ≠ b

/-! ## time -/

/-- Go `time.Time`, by what the program observes of it: the instant, as
seconds and nanoseconds since January 1, year 1, 00:00:00 UTC, and the offset
of the time's location at that instant, in seconds east of UTC. -/
structure Time where
  sec : Int
  nsec : Nat
  offset : Int
deriving DecidableEq, Repr

/-- The zero value of `time.Time`. -/
def Time.zero : Time := { sec := 0, nsec := 0, offset := 0 }

/-- Go `Time.IsZero()`: the instant is January 1, year 1, 00:00:00 UTC. -/
def Time.IsZero (t : Time) : Bool := t.sec == 0 && t.nsec == 0

/-- Go `appendInt(b, x, width)` for `x ≥ 0`: decimal digits, zero-padded on
the left to at least `width` characters. -/
def padNat (x width : Nat) : String :=
  let d := sprintNat x
  ⟨List.replicate (width - d.length) '0'⟩ ++ d

/-- Go `appendInt(b, x, width)`. -/
def padInt (x : Int) (width : Nat) : String :=
  if x < 0 then "-" ++ padNat x.natAbs width else padNat x.natAbs width

/-- Year, month and day of the proleptic Gregorian calendar for a number of
days since January 1, year 1. -/
def civil (days : Int) : Int × Nat × Nat :=
  let z := days + 306
  let era := z / 146097
  let doe := (z % 146097).toNat
  let yoe := (doe - doe / 1460 + doe / 36524 - doe / 146096) / 365
  let doy := doe - (365 * yoe + yoe / 4 - yoe / 100)
  let mp := (5 * doy + 2) / 153
  let d := doy - (153 * mp + 2) / 5 + 1
  let m := if mp < 10 then mp + 3 else mp - 9
  let y := (yoe : Int) + era * 400
  (if m ≤ 2 then y + 1 else y, m, d)

/-- The zone suffix of the layout element `Z07:00`: `Z` for offset 0, else
the sign and the offset in hours and minutes. -/
def zoneSuffix (offset : Int) : String :=
  if offset = 0 then "Z"
  else
    let zone := offset.natAbs / 60
    (if offset < 0 ∧ zone ≠ 0 then "-" else "+") ++
      padNat (zone / 60) 2 ++ ":" ++ padNat (zone % 60) 2

/-- Go `t.Format(time.RFC3339)`, the layout `2006-01-02T15:04:05Z07:00`. -/
def Time.FormatRFC3339 (t : Time) : String :=
  let abs := t.sec + t.offset
  let (y, m, d) := civil (abs / 86400)
  let s := (abs % 86400).toNat
  padInt y 4 ++ "-" ++ padNat m 2 ++ "-" ++ padNat d 2 ++ "T" ++
    padNat (s / 3600) 2 ++ ":" ++ padNat (s / 60 % 60) 2 ++ ":" ++ padNat (s % 60) 2 ++
    zoneSuffix t.offset

/-! ## query.go -/

/-- The Go type `StoryState`, a string type. -/
abbrev StoryState := String

def StoryStateUnscheduled : StoryState := "unscheduled"
def StoryStatePlanned : StoryState := "planned"
def StoryStateStarted : StoryState := "started"
def StoryStateFinished : StoryState := "finished"
def StoryStateDelivered : StoryState := "delivered"
def StoryStateAccepted : StoryState := "accepted"
def StoryStateRejected : StoryState := "rejected"

/-- The struct `StoriesQuery`; the default of every field is its Go zero
value. -/
structure StoriesQuery where
  State : StoryState := ""
  Label : String := ""
  Filter : List String := []
  AcceptedBefore : Time := Time.zero
  AcceptedAfter : Time := Time.zero
  CreatedBefore : Time := Time.zero
  CreatedAfter : Time := Time.zero
  UpdatedBefore : Time := Time.zero
  UpdatedAfter : Time := Time.zero
  Limit : Int := 0
  Offset : Int := 0

/-- The method `StoriesQuery.Query`. -/
def StoriesQuery.Query (query : StoriesQuery) : Values :=
  let params := Values.empty
  let params := if query.State ≠ "" then
    params.Set "with_state" query.State else params
  let params := if query.Label ≠ "" then
    params.Set "with_label" query.Label else params
  let params := if query.Filter.length ≠ 0 then
    params.Set "filter" (stringsJoin query.Filter " ") else params
  let params := if !query.AcceptedBefore.IsZero then
    params.Set "accepted_before" query.AcceptedBefore.FormatRFC3339 else params
  let params := if !query.AcceptedAfter.IsZero then
    params.Set "accepted_after" query.AcceptedAfter.FormatRFC3339 else params
  let params := if !query.CreatedBefore.IsZero then
    params.Set "created_before" query.CreatedBefore.FormatRFC3339 else params
  let params := if !query.CreatedAfter.IsZero then
    params.Set "created_after" query.CreatedAfter.FormatRFC3339 else params
  let params := if !query.UpdatedBefore.IsZero then
    params.Set "updated_before" query.UpdatedBefore.FormatRFC3339 else params
  let params := if !query.UpdatedAfter.IsZero then
    params.Set "updated_after" query.UpdatedAfter.FormatRFC3339 else params
  let params := if query.Limit ≠ 0 then
    params.Set "limit" (sprintInt query.Limit) else params
  let params := if query.Offset ≠ 0 then
    params.Set "offset" (sprintInt query.Offset) else params
  params

/-- The struct `ActivityQuery`. -/
structure ActivityQuery where
  Limit : Int := 0
  Offset : Int := 0
  OccurredBefore : Int := 0
  OccurredAfter : Int := 0
  SinceVersion : Int := 0

/-- The method `ActivityQuery.Query`. -/
def ActivityQuery.Query (query : ActivityQuery) : Values :=
  let params := Values.empty
  let params := if query.Limit ≠ 0 then
    params.Set "limit" (sprintInt query.Limit) else params
  let params := if query.Offset ≠ 0 then
    params.Set "offset" (sprintInt query.Offset) else params
  let params := if query.OccurredBefore ≠ 0 then
    params.Set "occurred_before" (sprintInt query.OccurredBefore) else params
  let params := if query.OccurredAfter ≠ 0 then
    params.Set "occurred_after" (sprintInt query.OccurredAfter) else params
  let params := if query.SinceVersion ≠ 0 then
    params.Set "since_version" (sprintInt query.SinceVersion) else params
  params

/-- The struct `TaskQuery`, which has no fields. -/
structure TaskQuery where

/-- The method `TaskQuery.Query`. -/
def TaskQuery.Query (_query : TaskQuery) : Values := Values.empty

/-! ## strconv, net/textproto, net/http -/

/-- Go `error` values, as far as the program makes or passes them on. -/
inductive Error where
  /-- The result of `errors.New(text)` and of `fmt.Errorf` without `%w`. -/
  | errorString (text : String)
  /-- A `*strconv.NumError{Func, Num, Err}`. -/
  | numError (func num err : String)
deriving DecidableEq, Repr

deriving instance DecidableEq for Except

/-- The size in bits of Go's `int` (`strconv.IntSize`), here a 64-bit
platform. -/
def intSize : Nat := 64

/-- The largest `uint64`, `1<<64 - 1`. -/
def maxUint64 : Nat := 18446744073709551615

/-- The digit loop of `strconv.ParseUint(s, 10, 64)`, from left to right:
`invalid syntax` at a character that is not a digit, `value out of range` as
soon as the number read so far no longer fits 64 bits, whatever follows. -/
def parseDigits : List Char → Nat → Except String Nat
  | [], n => .ok n
  | c :: cs, n =>
    if c.isDigit then
      if n ≥ maxUint64 / 10 + 1 then .error "value out of range"
      else if n * 10 + (c.toNat - 48) > maxUint64 then .error "value out of range"
      else parseDigits cs (n * 10 + (c.toNat - 48))
    else .error "invalid syntax"

/-- The body of `Atoi` once the sign is split off: `s` is the whole input,
`neg` tells whether it began with `-`, `digits` is what follows the sign. -/
def atoiCore (s : String) (neg : Bool) (digits : List Char) : Except Error Int :=
  if digits = [] then .error (.numError "Atoi" s "invalid syntax")
  else match parseDigits digits 0 with
    | .error err => .error (.numError "Atoi" s err)
    | .ok n =>
      if neg then
        if n > 2 ^ (intSize - 1) then .error (.numError "Atoi" s "value out of range")
        else .ok (-(n : Int))
      else
        if n ≥ 2 ^ (intSize - 1) then .error (.numError "Atoi" s "value out of range")
        else .ok (n : Int)

/-- Go `strconv.Atoi(s)`: an optional sign and one or more decimal digits,
read from left to right; `invalid syntax` at the first character that is not
a digit, `value out of range` when the number does not fit an `int`. -/
def Atoi (s : String) : Except Error Int :=
  match s.data with
  | '-' :: rest => atoiCore s true rest
  | '+' :: rest => atoiCore s false rest
  | cs => atoiCore s false cs

/-- The text is a decimal integer: an optional sign, then one or more ASCII
digits. -/
def isIntegerText (s : String) : Bool :=
  match s.data with
  | '-' :: rest => rest ≠ [] && rest.all Char.isDigit
  | '+' :: rest => rest ≠ [] && rest.all Char.isDigit
  | cs => cs ≠ [] && cs.all Char.isDigit

/-- The number a sequence of decimal digits denotes. -/
def digitsValue (cs : List Char) : Nat :=
  cs.foldl (fun acc c => acc * 10 + (c.toNat - 48)) 0

/-- The integer a decimal integer text denotes. -/
def integerValue (s : String) : Int :=
  match s.data with
  | '-' :: rest => -(digitsValue rest : Int)
  | '+' :: rest => (digitsValue rest : Int)
  | cs => (digitsValue cs : Int)

/-- The integer fits Go's `int`. -/
def fitsInt (n : Int) : Prop := -(2 ^ (intSize - 1) : Int) ≤ n ∧ n < 2 ^ (intSize - 1)

instance fitsInt.decidable (n : Int) : Decidable (fitsInt n) :=
  inferInstanceAs (Decidable (-(2 ^ (intSize - 1) : Int) ≤ n ∧ n < 2 ^ (intSize - 1)))

/-- A pagination header value the program accepts: empty (the header is
absent or empty), or a decimal integer that fits an `int`. -/
def headerOK (s : String) : Prop := s = "" ∨ (isIntegerText s = true ∧ fitsInt (integerValue s))

instance headerOK.decidable (s : String) : Decidable (headerOK s) :=
  inferInstanceAs (Decidable (s = "" ∨ (isIntegerText s = true ∧ fitsInt (integerValue s))))

/-- The number a pagination header value stands for: 0 when it is empty. -/
def headerValue (s : String) : Int := if s = "" then 0 else integerValue s

/-- Go `textproto.validHeaderFieldByte`: the token characters of RFC 7230. -/
def validHeaderFieldByte (c : Char) : Bool :=
  c.isAlphanum || c ∈ "!#$%&*+-.^_|~".data || c = Char.ofNat 39 || c = Char.ofNat 96

/-- The rewriting loop of `canonicalMIMEHeaderKey`: upper case for the first
letter and for a letter after a dash, lower case for every other letter. -/
def canonicalize : Bool → List Char → List Char
  | _, [] => []
  | upper, c :: cs =>
    let c := if upper && c.isLower then c.toUpper
      else if !upper && c.isUpper then c.toLower else c
    c :: canonicalize (c == '-') cs

/-- Go `textproto.CanonicalMIMEHeaderKey(s)`: the canonical form of a header
name; a name with a character that is not a token character is returned
unchanged. -/
def CanonicalMIMEHeaderKey (s : String) : String :=
  if s.data.all validHeaderFieldByte then ⟨canonicalize true s.data⟩ else s

/-- Go `http.Header` (`map[string][]string`). -/
abbrev Header := List (String × List String)

/-- Go `Header.Get(key)`: the first value under the canonical form of the
key, `""` when there is none. -/
def Header.Get (h : Header) (key : String) : String :=
  match Values.lookup h (CanonicalMIMEHeaderKey key) with
  | some (x :: _) => x
  | _ => ""

/-- The map update `h[key] = append(h[key], value)`. -/
def Header.append (h : Header) (key value : String) : Header :=
  match h with
  | [] => [(key, [value])]
  | (k, vs) :: rest =>
    if k = key then (k, vs ++ [value]) :: rest else (k, vs) :: Header.append rest key value

/-- Go `Header.Add(key, value)`: appends the value under the canonical form
of the key. -/
def Header.Add (h : Header) (key value : String) : Header :=
  Header.append h (CanonicalMIMEHeaderKey key) value

/-- Go `*http.Request`, by what the program puts into it: the method, the
URL text the request was built from, the headers and the body. The library
parses the URL text; the parsed form, with its escaping and its split into
path, query and fragment, is not modelled, so `URL` is the text handed to
`http.NewRequest`, not what the library later writes on the wire. -/
structure Request where
  Method : String
  URL : String
  Header : Header := []
  Body : Option String := none
deriving DecidableEq, Repr

/-- Go `*http.Response`, by the fields the program reads: the status line
text (`"200 OK"`), the status code, the headers, the text read from the body
and what closing the body returns. -/
structure Response where
  Status : String
  StatusCode : Int
  Header : Header := []
  Body : String := ""
  BodyClose : Option Error := none
deriving DecidableEq, Repr

def StatusOK : Int := 200
def StatusCreated : Int := 201
def StatusNoContent : Int := 204
def StatusUnauthorized : Int := 401

/-- What the program takes from its surroundings when it builds a request:
the package variable `DefaultURL`, and for which method and URL text
`http.NewRequest` refuses, with the text of its error. -/
structure Env where
  DefaultURL : String
  requestError : String → String → Option String

/-- The initial value of the package variable `DefaultURL`. -/
def DefaultURL : String := "https://www.pivotaltracker.com"

/-- Go `http.NewRequest(method, url, nil)`: an empty method means `GET`; the
request keeps the URL text it was built from. Which method and URL text the
library refuses is given by the environment. -/
def NewRequest (env : Env) (method url : String) : Except String Request :=
  let method := if method = "" then "GET" else method
  match env.requestError method url with
  | some err => .error err
  | none => .ok { Method := method, URL := url }

/-! ## connection.go -/

/-- The struct `connection`: the token and the HTTP client, the latter by
what `client.Do(request)` returns, a response or the text of an error. -/
structure connection where
  token : String
  client : Request → Except String Response

/-- The struct `Pagination`. -/
structure Pagination where
  Total : Int := 0
  Offset : Int := 0
  Limit : Int := 0
  Returned : Int := 0
deriving DecidableEq, Repr

def paginationTotalHeader : String := "X-Tracker-Pagination-Total"
def paginationOffsetHeader : String := "X-Tracker-Pagination-Offset"
def paginationLimitHeader : String := "X-Tracker-Pagination-Limit"
def paginationReturnedHeader : String := "X-Tracker-Pagination-Returned"

/-- The method `connection.sendRequest`. -/
def connection.sendRequest (c : connection) (request : Request) : Except Error Response :=
  match c.client request with
  | .error err => .error (.errorString ("failed to make request: " ++ err))
  | .ok response =>
    if response.StatusCode = StatusUnauthorized then
      .error (.errorString "invalid token")
    else if response.StatusCode ≠ StatusOK ∧ response.StatusCode ≠ StatusCreated ∧
        response.StatusCode ≠ StatusNoContent then
      let d := response.Body
      .error (.errorString ("request failed (" ++ response.Status ++ "): " ++ d))
    else .ok response

/-- The method `connection.decodeResponse`. `Decode body object` stands for
`json.NewDecoder(body).Decode(object)`: the object afterwards and the text of
the decoder's error, if any. -/
def connection.decodeResponse {β : Type} (_c : connection)
    (Decode : String → β → β × Option String) (response : Response) (object : β) :
    β × Option Error :=
  match Decode response.Body object with
  | (object, some err) => (object, some (.errorString ("invalid json response: " ++ err)))
  | (object, none) => (object, response.BodyClose)

/-- One header step of `connection.Do`: the header's value through `Atoi`
when it is not empty, else the field's zero value. -/
def paginationField (resp : Response) (header : String) : Except Error Int :=
  let val := resp.Header.Get header
  if val.length > 0 then Atoi val else .ok 0

/-- The method `connection.Do`. The argument `response` is `none` for a nil
interface and `some object` for a pointer to `object`; the result is the
returned `Pagination` and error, and the object afterwards. -/
def connection.Do {β : Type} (c : connection) (Decode : String → β → β × Option String)
    (request : Request) (response : Option β) : Pagination × Option Error × Option β :=
  match c.sendRequest request with
  | .error err => ({}, some err, response)
  | .ok resp =>
    match paginationField resp paginationTotalHeader with
    | .error err => ({}, some err, response)
    | .ok total =>
    match paginationField resp paginationOffsetHeader with
    | .error err => ({}, some err, response)
    | .ok offset =>
    match paginationField resp paginationLimitHeader with
    | .error err => ({}, some err, response)
    | .ok limit =>
    match paginationField resp paginationReturnedHeader with
    | .error err => ({}, some err, response)
    | .ok returned =>
    let pagination : Pagination :=
      { Total := total, Offset := offset, Limit := limit, Returned := returned }
    match response with
    | some object =>
      let (object, err) := c.decodeResponse Decode resp object
      (pagination, err, some object)
    | none => (pagination, none, none)

/-- The method `connection.CreateRequest`. -/
def connection.CreateRequest (c : connection) (env : Env) (method path : String)
    (params : Values) : Except Error Request :=
  let url := env.DefaultURL ++ "/services/v5" ++ path
  let query := params.Encode
  let url := if query ≠ "" then url ++ "?" ++ query else url
  match NewRequest env method url with
  | .error err => .error (.errorString ("failed to create request: " ++ err))
  | .ok request =>
    .ok { request with Header := request.Header.Add "X-TrackerToken" c.token }

/-! ## resources.go, client.go -/

/-- The struct `Person`. -/
structure Person where
  Username : String := ""
  Name : String := ""
  Initials : String := ""
  ID : Int := 0
  Email : String := ""
deriving DecidableEq, Repr

/-- The type `Me`, defined as `Person`. -/
abbrev Me := Person

/-- The struct `Client`. -/
structure Client where
  conn : connection

/-- The method `Client.Me`. -/
def Client.Me (c : Client) (env : Env)
    (Decode : String → Tracker.Me → Tracker.Me × Option String) :
    Tracker.Me × Option Error :=
  let me : Tracker.Me := {}
  match c.conn.CreateRequest env "GET" "/me" Values.empty with
  | .error err => (me, some err)
  | .ok request =>
    match c.conn.Do Decode request (some me) with
    | (_, err, object) => (object.getD me, err)

/-! ## Example inputs -/

/-- A connection with token `api-token` whose HTTP client answers every
request with the given response. -/
def answering (resp : Response) : connection :=
  { token := "api-token", client := fun _ => .ok resp }

/-- An environment with the default base URL in which every request can be
built. -/
def defaultEnv : Env := { DefaultURL := DefaultURL, requestError := fun _ _ => none }

/-- The request `GET /services/v5/me`. -/
def meRequest : Request :=
  { Method := "GET", URL := "https://www.pivotaltracker.com/services/v5/me",
    Header := [("X-Trackertoken", ["api-token"])] }

/-- A decoder that fails on every body, as `encoding/json` does on the empty
body, and leaves the object alone. -/
def failingDecode {β : Type} : String → β → β × Option String :=
  fun _ object => (object, some "EOF")

/-- A 401 response with a body and a pagination header. -/
def unauthorized : Response :=
  { Status := "401 Unauthorized", StatusCode := 401, Body := "[7]",
    Header := [("X-Tracker-Pagination-Total", ["12"])] }

/-- A 500 response with an empty body, as Go's HTTP server sends it. -/
def serverError : Response :=
  { Status := "500 Internal Server Error", StatusCode := 500, Body := "" }

/-- A 500 response with a body. -/
def serverErrorBody : Response :=
  { Status := "500 Internal Server Error", StatusCode := 500, Body := "boom" }

/-- A 200 response with the four pagination headers 1, 2, 3, 4. -/
def paginated : Response :=
  { Status := "200 OK", StatusCode := 200, Body := "[]",
    Header := [("X-Tracker-Pagination-Total", ["1"]), ("X-Tracker-Pagination-Offset", ["2"]),
      ("X-Tracker-Pagination-Limit", ["3"]), ("X-Tracker-Pagination-Returned", ["4"])] }

/-- A 200 response without pagination headers. -/
def unpaginated : Response := { Status := "200 OK", StatusCode := 200, Body := "[]" }

/-- A 200 response whose pagination headers are both decimal integers, the
second one 2^63. -/
def hugeOffset : Response :=
  { Status := "200 OK", StatusCode := 200, Body := "[]",
    Header := [("X-Tracker-Pagination-Total", ["1"]),
      ("X-Tracker-Pagination-Offset", ["9223372036854775808"])] }

/-- A 200 response whose second pagination header is not a number. -/
def badOffset : Response :=
  { Status := "200 OK", StatusCode := 200, Body := "[]",
    Header := [("X-Tracker-Pagination-Total", ["1"]), ("X-Tracker-Pagination-Offset", ["x"])] }

/-! ## encoding/json: reading one value from a stream

`json.NewDecoder(body).Decode(object)` reads one JSON value from the start of
the body, with the scanner of `encoding/json`, and unmarshals the text of that
value into the object; what follows the value in the body is not looked at.
The scanner is embedded as it is written: a step function over the characters
and a stack of the open objects and arrays. -/

/-- The entries of the scanner's `parseState` stack. -/
inductive ParseState where
  | objectKey
  | objectValue
  | arrayValue
deriving DecidableEq, Repr

/-- The step functions of the scanner (`scanner.step`). -/
inductive ScanStep where
  | beginValue
  | beginValueOrEmpty
  | beginStringOrEmpty
  | beginString
  | endValue
  | endTop
  | inString
  | inStringEsc
  | inStringEscU
  | inStringEscU1
  | inStringEscU12
  | inStringEscU123
  | neg
  | one
  | zero
  | dot
  | dot0
  | exp
  | expSign
  | exp0
  | litT
  | litTr
  | litTru
  | litF
  | litFa
  | litFal
  | litFals
  | litN
  | litNu
  | litNul
deriving DecidableEq, Repr

/-- What a step reports, as far as `Decoder.readValue` tells the codes apart:
`scanEnd`, `scanEndObject` or `scanEndArray`, `scanError`, and every other
code. -/
inductive ScanOp where
  | cont
  | endBracket
  | scanEnd
  | scanError
deriving DecidableEq, Repr

/-- The scanner: its step function and its stack, innermost entry first. -/
structure Scanner where
  step : ScanStep
  parseState : List ParseState
deriving DecidableEq, Repr

/-- The limit `maxNestingDepth` of the scanner. -/
def maxNestingDepth : Nat := 10000

/-- The scanner's `isSpace`. -/
def jsonIsSpace (c : Char) : Bool :=
  c = ' ' || c = Char.ofNat 9 || c = Char.ofNat 13 || c = Char.ofNat 10

/-- A hexadecimal digit, as the scanner tests it in a `\u` escape. -/
def jsonIsHex (c : Char) : Bool :=
  c.isDigit || ('a' ≤ c && c ≤ 'f') || ('A' ≤ c && c ≤ 'F')

/-- The scanner's `pushParseState`. -/
def Scanner.push (s : Scanner) (entry : ParseState) (next : ScanStep) : ScanOp × Scanner :=
  if s.parseState.length + 1 ≤ maxNestingDepth then
    (.cont, { step := next, parseState := entry :: s.parseState })
  else (.scanError, s)

/-- The scanner's `stateEndValue`. -/
def Scanner.endValue (s : Scanner) (c : Char) : ScanOp × Scanner :=
  match s.parseState with
  | [] => (.scanEnd, { s with step := .endTop })
  | ps :: rest =>
    if jsonIsSpace c then (.cont, { s with step := .endValue })
    else match ps with
      | .objectKey =>
        if c = ':' then (.cont, { step := .beginValue, parseState := .objectValue :: rest })
        else (.scanError, s)
      | .objectValue =>
        if c = ',' then (.cont, { step := .beginString, parseState := .objectKey :: rest })
        else if c = Char.ofNat 125 then
          (.endBracket, { step := if rest = [] then .endTop else .endValue, parseState := rest })
        else (.scanError, s)
      | .arrayValue =>
        if c = ',' then (.cont, { s with step := .beginValue })
        else if c = ']' then
          (.endBracket, { step := if rest = [] then .endTop else .endValue, parseState := rest })
        else (.scanError, s)

/-- The scanner's `stateBeginValue`. -/
def Scanner.beginValue (s : Scanner) (c : Char) : ScanOp × Scanner :=
  if jsonIsSpace c then (.cont, s)
  else if c = Char.ofNat 123 then s.push .objectKey .beginStringOrEmpty
  else if c = '[' then s.push .arrayValue .beginValueOrEmpty
  else if c = Char.ofNat 34 then (.cont, { s with step := .inString })
  else if c = '-' then (.cont, { s with step := .neg })
  else if c = '0' then (.cont, { s with step := .zero })
  else if c = 't' then (.cont, { s with step := .litT })
  else if c = 'f' then (.cont, { s with step := .litF })
  else if c = 'n' then (.cont, { s with step := .litN })
  else if '1' ≤ c ∧ c ≤ '9' then (.cont, { s with step := .one })
  else (.scanError, s)

/-- The scanner's `stateBeginString`. -/
def Scanner.beginString (s : Scanner) (c : Char) : ScanOp × Scanner :=
  if jsonIsSpace c then (.cont, s)
  else if c = Char.ofNat 34 then (.cont, { s with step := .inString })
  else (.scanError, s)

/-- The scanner's `state0`: after a number's leading zero or its integer
digits. -/
def Scanner.afterInt (s : Scanner) (c : Char) : ScanOp × Scanner :=
  if c = '.' then (.cont, { s with step := .dot })
  else if c = 'e' ∨ c = 'E' then (.cont, { s with step := .exp })
  else s.endValue c

/-- The scanner's `stateESign`. -/
def Scanner.afterExpSign (s : Scanner) (c : Char) : ScanOp × Scanner :=
  if c.isDigit then (.cont, { s with step := .exp0 }) else (.scanError, s)

/-- One step of a literal `true`, `false` or `null`: the expected character
leads to the next state. -/
def Scanner.literal (s : Scanner) (c expected : Char) (next : ScanStep) : ScanOp × Scanner :=
  if c = expected then (.cont, { s with step := next }) else (.scanError, s)

/-- One step of the scanner, `s.step(s, c)`. -/
def Scanner.stepChar (s : Scanner) (c : Char) : ScanOp × Scanner :=
  match s.step with
  | .beginValue => s.beginValue c
  | .beginValueOrEmpty =>
    if jsonIsSpace c then (.cont, s)
    else if c = ']' then s.endValue c
    else s.beginValue c
  | .beginStringOrEmpty =>
    if jsonIsSpace c then (.cont, s)
    else if c = Char.ofNat 125 then
      Scanner.endValue { s with parseState := .objectValue :: s.parseState.tail } c
    else s.beginString c
  | .beginString => s.beginString c
  | .endValue => s.endValue c
  | .endTop => (.scanEnd, s)
  | .inString =>
    if c = Char.ofNat 34 then (.cont, { s with step := .endValue })
    else if c = Char.ofNat 92 then (.cont, { s with step := .inStringEsc })
    else if c.toNat < 32 then (.scanError, s)
    else (.cont, s)
  | .inStringEsc =>
    if c = 'b' ∨ c = 'f' ∨ c = 'n' ∨ c = 'r' ∨ c = 't' ∨ c = Char.ofNat 92 ∨ c = '/' ∨
        c = Char.ofNat 34 then (.cont, { s with step := .inString })
    else if c = 'u' then (.cont, { s with step := .inStringEscU })
    else (.scanError, s)
  | .inStringEscU =>
    if jsonIsHex c then (.cont, { s with step := .inStringEscU1 }) else (.scanError, s)
  | .inStringEscU1 =>
    if jsonIsHex c then (.cont, { s with step := .inStringEscU12 }) else (.scanError, s)
  | .inStringEscU12 =>
    if jsonIsHex c then (.cont, { s with step := .inStringEscU123 }) else (.scanError, s)
  | .inStringEscU123 =>
    if jsonIsHex c then (.cont, { s with step := .inString }) else (.scanError, s)
  | .neg =>
    if c = '0' then (.cont, { s with step := .zero })
    else if '1' ≤ c ∧ c ≤ '9' then (.cont, { s with step := .one })
    else (.scanError, s)
  | .one => if c.isDigit then (.cont, s) else s.afterInt c
  | .zero => s.afterInt c
  | .dot => if c.isDigit then (.cont, { s with step := .dot0 }) else (.scanError, s)
  | .dot0 =>
    if c.isDigit then (.cont, s)
    else if c = 'e' ∨ c = 'E' then (.cont, { s with step := .exp })
    else s.endValue c
  | .exp =>
    if c = '+' ∨ c = '-' then (.cont, { s with step := .expSign }) else s.afterExpSign c
  | .expSign => s.afterExpSign c
  | .exp0 => if c.isDigit then (.cont, s) else s.endValue c
  | .litT => s.literal c 'r' .litTr
  | .litTr => s.literal c 'u' .litTru
  | .litTru => s.literal c 'e' .endValue
  | .litF => s.literal c 'a' .litFa
  | .litFa => s.literal c 'l' .litFal
  | .litFal => s.literal c 's' .litFals
  | .litFals => s.literal c 'e' .endValue
  | .litN => s.literal c 'u' .litNu
  | .litNu => s.literal c 'l' .litNul
  | .litNul => s.literal c 'l' .endValue

/-- The loop of `Decoder.readValue`: the number of characters of the first
value of the input, `n` being the number read so far; `none` when the scanner
reports an error or the input ends before the value does. A value that ends
with a closing bracket ends there; any other value ends before the next
character or at the end of the input. -/
def readValueLoop : Scanner → List Char → Nat → Option Nat
  | s, [], n => if (s.stepChar ' ').1 = .scanEnd then some n else none
  | s, c :: cs, n =>
    match s.stepChar c with
    | (.scanError, _) => none
    | (.scanEnd, _) => some n
    | (.endBracket, s2) =>
      if (s2.endValue ' ').1 = .scanEnd then some (n + 1) else readValueLoop s2 cs (n + 1)
    | (.cont, s2) => readValueLoop s2 cs (n + 1)

/-- Go `Decoder.readValue` on a fresh decoder: the text of the first JSON
value of the body, leading white space included, or `none` when there is no
such value. -/
def readValue (body : String) : Option String :=
  match readValueLoop { step := .beginValue, parseState := [] } body.data 0 with
  | some n => some ⟨body.data.take n⟩
  | none => none

/-- The body is well-formed JSON as a whole (Go `json.Valid`): one value, with
nothing but white space after it. -/
def validJSON (body : String) : Bool :=
  match readValueLoop { step := .beginValue, parseState := [] } body.data 0 with
  | some n => (body.data.drop n).all jsonIsSpace
  | none => false

/-- Go `json.NewDecoder(body).Decode(object)`: when no value can be read from
the start of the body the decoder fails and leaves the object alone
(`syntaxError` gives the text of its error), else it unmarshals the text of
the first value into the object (`unmarshal`, which depends on the type of the
object). -/
def jsonDecode {β : Type} (syntaxError : String → String)
    (unmarshal : String → β → β × Option String) : String → β → β × Option String :=
  fun body object =>
    match readValue body with
    | none => (object, some (syntaxError body))
    | some value => unmarshal value object

/-- Unmarshalling into a `*json.RawMessage`: the object becomes the text of
the value, and there is no error. -/
def unmarshalRaw : String → String → String × Option String :=
  fun value _ => (value, none)

/-! ## resources.go: the records the client decodes into -/

/-- The Go type `StoryType`, a string type. -/
abbrev StoryType := String

/-- The struct `Label`; a `*time.Time` field is `none` when nil. -/
structure Label where
  Kind : String := ""
  ID : Int := 0
  ProjectID : Int := 0
  CreatedAt : Option Time := none
  UpdatedAt : Option Time := none
  Name : String := ""
deriving DecidableEq, Repr

/-- The struct `Blocker`. -/
structure Blocker where
  ID : Int := 0
  Description : String := ""
deriving DecidableEq, Repr

/-- The struct `Comment`. -/
structure Comment where
  ID : Int := 0
  Text : String := ""
deriving DecidableEq, Repr

/-- The struct `Story`; the field `Type` is written `Type_`. -/
structure Story where
  ID : Int := 0
  ProjectID : Int := 0
  URL : String := ""
  Name : String := ""
  Description : String := ""
  Type_ : StoryType := ""
  State : StoryState := ""
  Estimate : Int := 0
  Labels : List Label := []
  CreatedAt : Option Time := none
  UpdatedAt : Option Time := none
  AcceptedAt : Option Time := none
  Blockers : List Blocker := []
deriving DecidableEq, Repr

/-! ## client.go: `InProject` and `Story` -/

/-- The struct `ProjectClient`. -/
structure ProjectClient where
  id : Int
  conn : connection

/-- The method `Client.InProject`. -/
def Client.InProject (c : Client) (projectId : Int) : ProjectClient :=
  { id := projectId, conn := c.conn }

/-- The method `Client.Story`. -/
def Client.Story (c : Client) (env : Env)
    (Decode : String → Tracker.Story → Tracker.Story × Option String) (storyID : Int) :
    Tracker.Story × Option Error :=
  let url := "/stories/" ++ sprintInt storyID
  match c.conn.CreateRequest env "GET" url Values.empty with
  | .error err => ({}, some err)
  | .ok request =>
    let story : Tracker.Story := {}
    match c.conn.Do Decode request (some story) with
    | (_, some err, _) => ({}, some err)
    | (_, none, object) => (object.getD story, none)

/-! ## project_client.go

The calls in this file are written against an earlier form of the connection:
`CreateRequest` is called with a method and a path only, and `Do` is used for
its error alone. They are embedded with the nil parameter set as the missing
third argument of `CreateRequest`, and with the error component of what `Do`
returns. Each operation returns, next to its Go results, the requests it
hands to the HTTP client, in order. -/

/-- The call `p.conn.Do(request, out)` together with the requests it hands to
the HTTP client: `sendRequest` calls `client.Do(request)` once, first
thing. -/
def connection.DoLogged {β : Type} (c : connection)
    (Decode : String → β → β × Option String) (request : Request) (response : Option β) :
    (Pagination × Option Error × Option β) × List Request :=
  (c.Do Decode request response, [request])

/-- The decoder argument for a call of `Do` with a nil output: there is no
object, and nothing is decoded. -/
def noDecode : String → Unit → Unit × Option String := fun _ object => (object, none)

/-- The method `ProjectClient.createRequest`. -/
def ProjectClient.createRequest (p : ProjectClient) (env : Env) (method path : String) :
    Except Error Request :=
  let projectPath := "/projects/" ++ sprintInt p.id ++ path
  p.conn.CreateRequest env method projectPath Values.empty

/-- The method `ProjectClient.addJSONBody`. -/
def ProjectClient.addJSONBody (_p : ProjectClient) (request : Request) (body : String) :
    Request :=
  { request with
    Header := request.Header.Add "Content-Type" "application/json"
    Body := some body }

/-- The method `ProjectClient.Stories`. -/
def ProjectClient.Stories (p : ProjectClient) (env : Env)
    (Decode : String → List Story → List Story × Option String) (query : StoriesQuery) :
    (List Story × Option Error) × List Request :=
  let stories : List Story := []
  let params := query.Query.Encode
  match p.createRequest env "GET" ("/stories?" ++ params) with
  | .error err => ((stories, some err), [])
  | .ok request =>
    match p.conn.DoLogged Decode request (some stories) with
    | ((_, err, object), sent) => ((object.getD stories, err), sent)

/-- The JSON text of the state change `DeliverStory` sends. -/
def deliveredBody : String := "\x7b\"current_state\":\"delivered\"\x7d"

/-- The method `ProjectClient.DeliverStory`. -/
def ProjectClient.DeliverStory (p : ProjectClient) (env : Env) (storyId : Int) :
    Option Error × List Request :=
  let url := "/stories/" ++ sprintInt storyId
  match p.createRequest env "PUT" url with
  | .error err => (some err, [])
  | .ok request =>
    let request := p.addJSONBody request deliveredBody
    match p.conn.DoLogged noDecode request none with
    | ((_, err, _), sent) => (err, sent)

/-- One lower-case hexadecimal digit (`"0123456789abcdef"[d]`). -/
def lowerhex (d : Nat) : Char :=
  if d < 10 then Char.ofNat (48 + d) else Char.ofNat (87 + d)

/-- The form of one character inside a JSON string as Go `encoding/json`
writes it: the quote and the backslash behind a backslash, `\n`, `\r`, `\t`,
the other control characters and `<`, `>`, `&` as `\u00XX`, the line
separators U+2028 and U+2029 as `\u202X`, every other character as it is. -/
def jsonEscapeChar (c : Char) : List Char :=
  let n := c.toNat
  let bs := Char.ofNat 92
  if n = 34 ∨ n = 92 then [bs, c]
  else if n = 10 then [bs, 'n']
  else if n = 13 then [bs, 'r']
  else if n = 9 then [bs, 't']
  else if n < 32 ∨ c = '<' ∨ c = '>' ∨ c = '&' then
    [bs, 'u', '0', '0', lowerhex (n / 16), lowerhex (n % 16)]
  else if n = 0x2028 ∨ n = 0x2029 then [bs, 'u', '2', '0', '2', lowerhex (n % 16)]
  else [c]

/-- A string as a JSON string: escaped, between quotes. -/
def jsonString (s : String) : String :=
  ⟨[Char.ofNat 34] ++ s.data.flatMap jsonEscapeChar ++ [Char.ofNat 34]⟩

/-- Modelled from the spec: the body of the comment POST of
`deliver_story_with_comment`, whose method is not among the source files: a
JSON object with the comment text, escaped as a JSON string, under `text`
(the test sends `some delive"}ry comment with tricky text` and expects the
JSON `{"text":"some delive\"}ry comment with tricky text"}`). -/
def commentJSON (text : String) : String :=
  "\x7b\"text\":" ++ jsonString text ++ "\x7d"

/-- Modelled from the spec: `deliver_story_with_comment(id, text)`, the
method `ProjectClient.DeliverStoryWithComment`, is not among the source
files. The spec: "performs deliver_story, then POSTs a comment; the comment
is only created if delivery succeeded. No compensating action if the comment
POST fails after delivery succeeds (partial-failure is surfaced, not rolled
back)." The POST goes to `/stories/<id>/comments` under the project, with the
comment record as JSON body, and no output is decoded. -/
def ProjectClient.DeliverStoryWithComment (p : ProjectClient) (env : Env) (storyId : Int)
    (comment : String) : Option Error × List Request :=
  match p.DeliverStory env storyId with
  | (some err, sent) => (some err, sent)
  | (none, sent) =>
    let url := "/stories/" ++ sprintInt storyId ++ "/comments"
    match p.createRequest env "POST" url with
    | .error err => (some err, sent)
    | .ok request =>
      let request := p.addJSONBody request (commentJSON comment)
      match p.conn.DoLogged noDecode request none with
      | ((_, err, _), sent2) => (err, sent ++ sent2)

/-! ## Example inputs (continued) -/

/-- The project client for project 99 over a connection whose HTTP client
answers every request with the given response. -/
def project99 (resp : Response) : ProjectClient :=
  (Client.mk (answering resp)).InProject 99

/-- The request `GET /services/v5/stories/560`. -/
def storyRequest : Request :=
  { Method := "GET", URL := "https://www.pivotaltracker.com/services/v5/stories/560",
    Header := [("X-Trackertoken", ["api-token"])] }

/-- An environment whose base URL is the one of the test, with which no
request can be built. -/
def brokenEnv : Env :=
  { DefaultURL := "aaaaa)#Q&%*(*", requestError := fun _ _ => some "invalid URL escape" }

/-- A connection whose HTTP client fails on every request, as when the server
is closed. -/
def refusing : connection :=
  { token := "api-token", client := fun _ => .error "connection refused" }

/-- A 200 response with a `Total` header of 7 and a body that is not JSON. -/
def brokenBody : Response :=
  { Status := "200 OK", StatusCode := 200, Body := "\x7b\"",
    Header := [("X-Tracker-Pagination-Total", ["7"])] }

/-- A 200 response with a `Total` header of 2^63 and a body that is not
JSON. -/
def hugeTotalBrokenBody : Response :=
  { Status := "200 OK", StatusCode := 200, Body := "\x7b\"",
    Header := [("X-Tracker-Pagination-Total", ["9223372036854775808"])] }

/-- A 500 response with pagination headers, one of them not a number. -/
def serverErrorPaginated : Response :=
  { Status := "500 Internal Server Error", StatusCode := 500, Body := "boom",
    Header := [("X-Tracker-Pagination-Total", ["12"]), ("X-Tracker-Pagination-Limit", ["x"])] }

/-- A 200 response whose body is an empty JSON object followed by the letter
`x`: not well-formed JSON as a whole. -/
def trailingBody : Response := { Status := "200 OK", StatusCode := 200, Body := "\x7b\x7dx" }

/-- The text of a syntax error, for the examples. -/
def exampleSyntaxError : String → String := fun _ => "unexpected EOF"

/-- A connection whose HTTP client answers a PUT with an empty 200 response
and every other request with a 500 response. -/
def deliverOnly : connection :=
  { token := "api-token"
    client := fun request =>
      if request.Method = "PUT" then .ok { Status := "200 OK", StatusCode := 200 }
      else .ok serverErrorBody }

/-! ## Facts about the string order -/

theorem bytesLe_total (a b : List Char) : bytesLe a b = true ∨ bytesLe b a = true := by
  induction a generalizing b with
  | nil => left; rfl
  | cons x xs ih =>
    cases b with
    | nil => right; rfl
    | cons y ys =>
      simp only [bytesLe]
      by_cases h1 : x.toNat < y.toNat
      · simp [h1]
      · by_cases h2 : y.toNat < x.toNat
        · simp [h2]
        · simpa [h1, h2] using ih ys

theorem bytesLe_trans (a b c : List Char)
    (hab : bytesLe a b = true) (hbc : bytesLe b c = true) : bytesLe a c = true := by
  induction a generalizing b c with
  | nil => rfl
  | cons x xs ih =>
    cases b with
    | nil => simp [bytesLe] at hab
    | cons y ys =>
      cases c with
      | nil => simp [bytesLe] at hbc
      | cons z zs =>
        simp only [bytesLe] at hab hbc ⊢
        by_cases h1 : x.toNat < y.toNat
        · by_cases h2 : y.toNat < z.toNat
          · have : x.toNat < z.toNat := by omega
            simp [this]
          · by_cases h3 : z.toNat < y.toNat
            · simp [h2, h3] at hbc
            · have : x.toNat < z.toNat := by omega
              simp [this]
        · by_cases h1' : y.toNat < x.toNat
          · simp [h1, h1'] at hab
          · simp only [h1, h1', if_false] at hab
            by_cases h2 : y.toNat < z.toNat
            · have : x.toNat < z.toNat := by omega
              simp [this]
            · by_cases h3 : z.toNat < y.toNat
              · simp [h2, h3] at hbc
              · simp only [h2, h3, if_false] at hbc
                have e1 : ¬ x.toNat < z.toNat := by omega
                have e2 : ¬ z.toNat < x.toNat := by omega
                simp only [e1, e2, if_false]
                exact ih ys zs hab hbc

theorem char_eq_of_toNat_eq (x y : Char) (h : x.toNat = y.toNat) : x = y := by
  have h1 : Char.ofNat x.toNat = Char.ofNat y.toNat := by rw [h]
  simpa using h1

theorem bytesLe_antisymm (a b : List Char)
    (hab : bytesLe a b = true) (hba : bytesLe b a = true) : a = b := by
  induction a generalizing b with
  | nil =>
    cases b with
    | nil => rfl
    | cons y ys => simp [bytesLe] at hba
  | cons x xs ih =>
    cases b with
    | nil => simp [bytesLe] at hab
    | cons y ys =>
      simp only [bytesLe] at hab hba
      by_cases h1 : x.toNat < y.toNat
      · have h2 : ¬ y.toNat < x.toNat := by omega
        simp [h1, h2] at hba
      · by_cases h2 : y.toNat < x.toNat
        · simp [h1, h2] at hab
        · simp only [h1, h2, if_false] at hab hba
          have hxy : x = y := char_eq_of_toNat_eq x y (by omega)
          rw [hxy, ih ys hab hba]

theorem strLe_isTotal : IsTotal String strLe :=
  ⟨fun a b => bytesLe_total a.data b.data⟩

theorem strLe_isTrans : IsTrans String strLe :=
  ⟨fun a b c => bytesLe_trans a.data b.data c.data⟩

theorem strLe_isAntisymm : IsAntisymm String strLe :=
  ⟨fun a b hab hba => String.ext (bytesLe_antisymm a.data b.data hab hba)⟩

/-! ## Facts about `url.Values` -/

theorem Values.lookup_Set (v : Values) (k x k' : String) :
    Values.lookup (Values.Set v k x) k' =
      if k = k' then some [x] else Values.lookup v k' := by
  induction v with
  | nil => simp [Values.Set, Values.lookup]
  | cons p rest ih =>
    obtain ⟨a, vs⟩ := p
    by_cases hak : a = k
    · subst hak
      by_cases h : a = k' <;> simp [Values.Set, Values.lookup, h]
    · by_cases h : k = k'
      · subst h
        simp [Values.Set, Values.lookup, hak, ih]
      · simp [Values.Set, Values.lookup, hak, ih, h]

theorem Values.lookup_ite_Set (c : Prop) [Decidable c] (v : Values) (k x k' : String) :
    Values.lookup (if c then Values.Set v k x else v) k' =
      if c ∧ k = k' then some [x] else Values.lookup v k' := by
  by_cases hc : c <;> simp [hc, Values.lookup_Set]

theorem Values.mem_keys_iff (v : Values) (k : String) :
    k ∈ Values.keys v ↔ Values.lookup v k ≠ none := by
  induction v with
  | nil => simp [Values.keys, Values.lookup]
  | cons p rest ih =>
    obtain ⟨a, vs⟩ := p
    by_cases h : a = k
    · simp [Values.keys, Values.lookup, h]
    · have h' : ¬ k = a := fun e => h e.symm
      simp only [Values.keys] at ih
      simp [Values.keys, Values.lookup, h, h', ih]

theorem Values.keys_Set (v : Values) (k x : String) :
    Values.keys (Values.Set v k x) =
      if k ∈ Values.keys v then Values.keys v else Values.keys v ++ [k] := by
  induction v with
  | nil => simp [Values.Set, Values.keys]
  | cons p rest ih =>
    obtain ⟨a, vs⟩ := p
    simp only [Values.keys] at ih
    by_cases h : a = k
    · simp [Values.Set, Values.keys, h]
    · have h' : ¬ k = a := fun e => h e.symm
      by_cases hm : k ∈ List.map Prod.fst rest
      · simp [Values.Set, Values.keys, h, h', ih, hm]
      · simp [Values.Set, Values.keys, h, h', ih, hm]

theorem Values.nodup_keys_Set (v : Values) (k x : String)
    (h : (Values.keys v).Nodup) : (Values.keys (Values.Set v k x)).Nodup := by
  rw [Values.keys_Set]
  by_cases hm : k ∈ Values.keys v
  · simpa [hm] using h
  · simp only [hm, if_false]
    exact List.Nodup.append h (List.nodup_singleton k) (by simpa using hm)

theorem Values.nodup_keys_ite_Set (c : Prop) [Decidable c] (v : Values) (k x : String)
    (h : (Values.keys v).Nodup) :
    (Values.keys (if c then Values.Set v k x else v)).Nodup := by
  by_cases hc : c
  · simpa [hc] using Values.nodup_keys_Set v k x h
  · simpa [hc] using h

/-! ## Facts about `Values.Encode` -/

theorem joinAmp_append (buf : String) (a b : List String) :
    joinAmp buf (a ++ b) = joinAmp (joinAmp buf a) b := by
  simp [joinAmp, List.foldl_append]

theorem encodeKey_eq_joinAmp (buf ke : String) (vs : List String) :
    Values.encodeKey buf ke vs =
      joinAmp buf (vs.map (fun x => ke ++ "=" ++ QueryEscape x)) := by
  induction vs generalizing buf with
  | nil => rfl
  | cons x xs ih =>
    simp only [Values.encodeKey, List.foldl_cons, List.map_cons, joinAmp] at ih ⊢
    rw [ih]
    simp [String.append_assoc]

theorem foldl_encodeKey (f : String → List String) (ks : List String) (buf : String) :
    ks.foldl (fun buf k => Values.encodeKey buf (QueryEscape k) (f k)) buf =
      joinAmp buf (ks.flatMap (fun k =>
        (f k).map (fun x => QueryEscape k ++ "=" ++ QueryEscape x))) := by
  induction ks generalizing buf with
  | nil => rfl
  | cons k ks ih =>
    simp only [List.foldl_cons, List.flatMap_cons, joinAmp_append]
    rw [ih, encodeKey_eq_joinAmp]

theorem Values.Encode_eq_joinAmp (v : Values) :
    Values.Encode v = joinAmp "" (Values.encodeParts v) := by
  unfold Values.Encode Values.encodeParts
  exact foldl_encodeKey (fun k => (Values.lookup v k).getD []) _ ""

theorem joinAmp_eq_go (parts : List String) (buf : String) (hb : buf.length > 0) :
    joinAmp buf parts = String.intercalate.go buf "&" parts := by
  induction parts generalizing buf with
  | nil => rfl
  | cons p ps ih =>
    have h1 : (buf ++ "&" ++ p).length > 0 := by
      simp only [String.length_append]; omega
    simp only [joinAmp, List.foldl_cons, hb, if_true, String.intercalate.go] at ih ⊢
    exact ih _ h1

theorem joinAmp_eq_intercalate (parts : List String) (h : ∀ p ∈ parts, p.length > 0) :
    joinAmp "" parts = "&".intercalate parts := by
  cases parts with
  | nil => rfl
  | cons p ps =>
    have hp : p.length > 0 := h p (List.mem_cons_self p ps)
    have e : joinAmp "" (p :: ps) = joinAmp p ps := by
      simp [joinAmp]
    rw [e, joinAmp_eq_go ps p hp]
    rfl

theorem Values.encodeParts_pos (v : Values) : ∀ p ∈ Values.encodeParts v, p.length > 0 := by
  intro p hp
  simp only [Values.encodeParts, List.mem_flatMap, List.mem_map] at hp
  obtain ⟨k, _, x, _, rfl⟩ := hp
  simp only [String.length_append]
  have : "=".length = 1 := rfl
  omega

/-- `Values.Encode` writes the segments `key=value`, by ascending key, with
one `&` between consecutive segments. -/
theorem Values.Encode_eq_intercalate (v : Values) :
    Values.Encode v = "&".intercalate (Values.encodeParts v) := by
  rw [Values.Encode_eq_joinAmp, joinAmp_eq_intercalate _ (Values.encodeParts_pos v)]

/-! ## query.go -/

/-- The keys `StoriesQuery.Query` can set. -/
theorem StoriesQuery_lookup_other (q : StoriesQuery) (k : String)
    (hk : k ∉ ["with_state", "with_label", "filter", "accepted_before", "accepted_after",
      "created_before", "created_after", "updated_before", "updated_after", "limit",
      "offset"]) : Values.lookup q.Query k = none := by
  simp only [List.mem_cons, List.mem_singleton, not_or, List.not_mem_nil, not_false_eq_true,
    and_true] at hk
  obtain ⟨h1, h2, h3, h4, h5, h6, h7, h8, h9, h10, h11⟩ := hk
  simp only [StoriesQuery.Query, Values.lookup_ite_Set]
  simp [Ne.symm h1, Ne.symm h2, Ne.symm h3, Ne.symm h4, Ne.symm h5, Ne.symm h6, Ne.symm h7,
    Ne.symm h8, Ne.symm h9, Ne.symm h10, Ne.symm h11, Values.empty, Values.lookup]

theorem StoriesQuery_nodup_keys (q : StoriesQuery) : (Values.keys q.Query).Nodup := by
  unfold StoriesQuery.Query
  repeat (first
    | exact List.nodup_nil
    | apply Values.nodup_keys_ite_Set)

/-- C1: `StoriesQuery.Query` holds one entry for each non-default field and
nothing else: state, label and joined filter as they are, each time that is
not the zero time in its RFC 3339 rendering (date, `T`, time of day in the
time's own zone, then `Z` or the zone offset), limit and offset in decimal. -/
theorem StoriesQuery_Query_entries (q : StoriesQuery) :
    (Values.lookup q.Query "with_state" = if q.State ≠ "" then some [q.State] else none) ∧
    (Values.lookup q.Query "with_label" = if q.Label ≠ "" then some [q.Label] else none) ∧
    (Values.lookup q.Query "filter" =
      if q.Filter ≠ [] then some [stringsJoin q.Filter " "] else none) ∧
    (Values.lookup q.Query "accepted_before" =
      if !q.AcceptedBefore.IsZero then some [q.AcceptedBefore.FormatRFC3339] else none) ∧
    (Values.lookup q.Query "accepted_after" =
      if !q.AcceptedAfter.IsZero then some [q.AcceptedAfter.FormatRFC3339] else none) ∧
    (Values.lookup q.Query "created_before" =
      if !q.CreatedBefore.IsZero then some [q.CreatedBefore.FormatRFC3339] else none) ∧
    (Values.lookup q.Query "created_after" =
      if !q.CreatedAfter.IsZero then some [q.CreatedAfter.FormatRFC3339] else none) ∧
    (Values.lookup q.Query "updated_before" =
      if !q.UpdatedBefore.IsZero then some [q.UpdatedBefore.FormatRFC3339] else none) ∧
    (Values.lookup q.Query "updated_after" =
      if !q.UpdatedAfter.IsZero then some [q.UpdatedAfter.FormatRFC3339] else none) ∧
    (Values.lookup q.Query "limit" = if q.Limit ≠ 0 then some [sprintInt q.Limit] else none) ∧
    (Values.lookup q.Query "offset" =
      if q.Offset ≠ 0 then some [sprintInt q.Offset] else none) ∧
    (∀ k, k ∉ ["with_state", "with_label", "filter", "accepted_before", "accepted_after",
      "created_before", "created_after", "updated_before", "updated_after", "limit",
      "offset"] → Values.lookup q.Query k = none) ∧
    (Values.keys q.Query).Nodup ∧
    Values.Encode (StoriesQuery.Query {}) = "" ∧
    Values.Encode (StoriesQuery.Query { State := StoryStateRejected }) =
      "with_state=rejected" ∧
    Values.Encode (StoriesQuery.Query { Label := "blocked" }) = "with_label=blocked" ∧
    Values.Encode (StoriesQuery.Query { Limit := 33 }) = "limit=33" ∧
    Time.FormatRFC3339 { sec := 63592473599, nsec := 0, offset := 0 } =
      "2016-03-01T23:59:59Z" ∧
    Time.FormatRFC3339 { sec := 63650361600, nsec := 0, offset := -19800 } =
      "2017-12-31T18:30:00-05:30" ∧
    Time.FormatRFC3339 { sec := 63087379200, nsec := 999999999, offset := 3600 } =
      "2000-02-29T01:00:00+01:00" ∧
    Time.FormatRFC3339 { sec := 0, nsec := 5, offset := 0 } = "0001-01-01T00:00:00Z" ∧
    Values.Encode (StoriesQuery.Query
      { AcceptedBefore := { sec := 63592473599, nsec := 0, offset := 0 } }) =
      "accepted_before=2016-03-01T23%3A59%3A59Z" ∧
    Values.Encode (StoriesQuery.Query
      { AcceptedAfter := { sec := 63650361600, nsec := 0, offset := -19800 } }) =
      "accepted_after=2017-12-31T18%3A30%3A00-05%3A30" ∧
    Values.Encode (StoriesQuery.Query
      { CreatedBefore := { sec := 63087379200, nsec := 999999999, offset := 3600 } }) =
      "created_before=2000-02-29T01%3A00%3A00%2B01%3A00" ∧
    Values.Encode (StoriesQuery.Query
      { CreatedAfter := { sec := 62135596800, nsec := 0, offset := 0 } }) =
      "created_after=1970-01-01T00%3A00%3A00Z" ∧
    Values.Encode (StoriesQuery.Query
      { UpdatedBefore := { sec := 63082260899, nsec := 0, offset := 20700 } }) =
      "updated_before=1999-12-31T23%3A59%3A59%2B05%3A45" ∧
    Values.Encode (StoriesQuery.Query
      { UpdatedAfter := { sec := 63855722096, nsec := 0, offset := -28800 } }) =
      "updated_after=2024-07-04T12%3A34%3A56-08%3A00" ∧
    Values.Encode (StoriesQuery.Query { UpdatedAfter := { sec := 0, nsec := 5, offset := 0 } }) =
      "updated_after=0001-01-01T00%3A00%3A00Z" ∧
    Values.Encode (StoriesQuery.Query
      { State := StoryStateStarted, Limit := 10, Offset := -2,
        CreatedAfter := { sec := 62135596800, nsec := 0, offset := 0 },
        UpdatedBefore := { sec := 63592473599, nsec := 0, offset := 0 } }) =
      "created_after=1970-01-01T00%3A00%3A00Z&limit=10&offset=-2&updated_before=2016-03-01T23%3A59%3A59Z&with_state=started" := by
  refine ⟨?_, ?_, ?_, ?_, ?_, ?_, ?_, ?_, ?_, ?_, ?_, StoriesQuery_lookup_other q,
    StoriesQuery_nodup_keys q, by set_option maxRecDepth 8000 in decide⟩ <;>
  · simp only [StoriesQuery.Query, Values.lookup_ite_Set]
    simp [Values.empty, Values.lookup]

/-! ## Sorted keys and the independence of `Encode` from the entry order -/

theorem Values.sortedKeys_sorted (v : Values) : (Values.sortedKeys v).Sorted strLe := by
  haveI := strLe_isTotal
  haveI := strLe_isTrans
  exact List.sorted_insertionSort strLe (Values.keys v)

theorem Values.sortedKeys_perm (v : Values) : (Values.sortedKeys v).Perm (Values.keys v) :=
  List.perm_insertionSort strLe (Values.keys v)

theorem Values.mem_sortedKeys_iff (v : Values) (k : String) :
    k ∈ Values.sortedKeys v ↔ Values.lookup v k ≠ none := by
  rw [(Values.sortedKeys_perm v).mem_iff, Values.mem_keys_iff]

theorem Values.sortedKeys_strict (v : Values) (h : (Values.keys v).Nodup) :
    (Values.sortedKeys v).Pairwise strLt := by
  have hs : (Values.sortedKeys v).Pairwise strLe := Values.sortedKeys_sorted v
  have hn : (Values.sortedKeys v).Pairwise (fun a b => a ≠ b) :=
    (Values.sortedKeys_perm v).nodup_iff.mpr h
  exact hs.and hn

theorem Values.sortedKeys_congr (v w : Values) (hv : (Values.keys v).Nodup)
    (hw : (Values.keys w).Nodup) (h : ∀ k, Values.lookup w k = Values.lookup v k) :
    Values.sortedKeys w = Values.sortedKeys v := by
  haveI := strLe_isAntisymm
  have hp : (Values.keys w).Perm (Values.keys v) := by
    rw [List.perm_ext_iff_of_nodup hw hv]
    intro k
    rw [Values.mem_keys_iff, Values.mem_keys_iff, h]
  exact List.eq_of_perm_of_sorted
    (((Values.sortedKeys_perm w).trans hp).trans (Values.sortedKeys_perm v).symm)
    (Values.sortedKeys_sorted w) (Values.sortedKeys_sorted v)

/-- The encoded form depends on the content of the map only, not on the
order in which its entries were set. -/
theorem Values.Encode_congr (v w : Values) (hv : (Values.keys v).Nodup)
    (hw : (Values.keys w).Nodup) (h : ∀ k, Values.lookup w k = Values.lookup v k) :
    Values.Encode w = Values.Encode v := by
  have hl : Values.lookup w = Values.lookup v := funext h
  unfold Values.Encode
  rw [Values.sortedKeys_congr v w hv hw h, hl]

theorem Values.flatMap_single (v : Values) (ks : List String)
    (h : ∀ k ∈ ks, ∃ x, Values.lookup v k = some [x]) :
    ks.flatMap (fun k =>
        ((Values.lookup v k).getD []).map (fun x => QueryEscape k ++ "=" ++ QueryEscape x)) =
      ks.map (fun k => QueryEscape k ++ "=" ++ QueryEscape (Values.Get v k)) := by
  induction ks with
  | nil => rfl
  | cons k ks ih =>
    obtain ⟨x, hx⟩ := h k (List.mem_cons_self k ks)
    simp only [List.flatMap_cons, List.map_cons]
    rw [ih (fun k' hk' => h k' (List.mem_cons_of_mem k hk'))]
    simp [Values.Get, hx]

theorem Values.single_empty :
    ∀ k vs, Values.lookup Values.empty k = some vs → ∃ y, vs = [y] := by
  intro k vs h
  simp [Values.empty, Values.lookup] at h

theorem Values.single_ite_Set (c : Prop) [Decidable c] (v : Values) (k x : String)
    (h : ∀ k' vs, Values.lookup v k' = some vs → ∃ y, vs = [y]) :
    ∀ k' vs, Values.lookup (if c then Values.Set v k x else v) k' = some vs → ∃ y, vs = [y] := by
  intro k' vs hl
  rw [Values.lookup_ite_Set] at hl
  by_cases hc : c ∧ k = k'
  · rw [if_pos hc] at hl
    exact ⟨x, (Option.some.inj hl).symm⟩
  · rw [if_neg hc] at hl
    exact h k' vs hl

/-- When every key of the map holds exactly one value, the encoded form is
`key=value` for each key in ascending order, joined by `&`. -/
theorem Values.Encode_single (v : Values)
    (h : ∀ k vs, Values.lookup v k = some vs → ∃ x, vs = [x]) :
    Values.Encode v = "&".intercalate
      ((Values.sortedKeys v).map
        (fun k => QueryEscape k ++ "=" ++ QueryEscape (Values.Get v k))) := by
  rw [Values.Encode_eq_intercalate]
  unfold Values.encodeParts
  rw [Values.flatMap_single]
  intro k hk
  rw [Values.mem_sortedKeys_iff] at hk
  cases hl : Values.lookup v k with
  | none => exact absurd hl hk
  | some vs =>
    obtain ⟨x, rfl⟩ := h k vs hl
    exact ⟨x, rfl⟩

theorem Values.Encode_singleton (k x : String) :
    Values.Encode [(k, [x])] = QueryEscape k ++ "=" ++ QueryEscape x := by
  simp [Values.Encode, Values.sortedKeys, Values.keys, Values.lookup, Values.encodeKey]

theorem stringsJoin_cons_cons (a b : String) (rest : List String) (sep : String) :
    stringsJoin (a :: b :: rest) sep = a ++ sep ++ stringsJoin (b :: rest) sep := by
  simp only [stringsJoin, List.foldl_cons]
  generalize b = c
  induction rest generalizing c with
  | nil => rfl
  | cons d ds ih =>
    simp only [List.foldl_cons]
    have e : a ++ sep ++ c ++ sep ++ d = a ++ sep ++ (c ++ sep ++ d) := by
      simp only [String.append_assoc]
    rw [e, ih]

theorem StoriesQuery_single (q : StoriesQuery) :
    ∀ k vs, Values.lookup q.Query k = some vs → ∃ x, vs = [x] := by
  unfold StoriesQuery.Query
  repeat (first
    | apply Values.single_ite_Set
    | exact Values.single_empty)

theorem StoriesQuery_escape_key (q : StoriesQuery) (k : String)
    (hk : k ∈ Values.sortedKeys q.Query) : QueryEscape k = k := by
  rw [Values.mem_sortedKeys_iff] at hk
  have hm : k ∈ ["with_state", "with_label", "filter", "accepted_before", "accepted_after",
      "created_before", "created_after", "updated_before", "updated_after", "limit",
      "offset"] := by
    by_contra hn
    exact hk (StoriesQuery_lookup_other q k hn)
  simp only [List.mem_cons, List.mem_singleton, List.not_mem_nil, or_false] at hm
  rcases hm with h | h | h | h | h | h | h | h | h | h | h <;> subst h <;> decide

/-- C2: a non-empty filter list is emitted as one `filter` entry whose value
is the clauses joined by single spaces, and that value is escaped as a whole
in the encoded form. -/
theorem StoriesQuery_filter_joined (q : StoriesQuery) (h : q.Filter ≠ []) :
    Values.lookup q.Query "filter" = some [stringsJoin q.Filter " "] ∧
    ("filter=" ++ QueryEscape (stringsJoin q.Filter " ")) ∈ Values.encodeParts q.Query ∧
    Values.Encode q.Query = "&".intercalate (Values.encodeParts q.Query) ∧
    Values.Encode (StoriesQuery.Query { Filter := q.Filter }) =
      "filter=" ++ QueryEscape (stringsJoin q.Filter " ") ∧
    (∀ a : String, stringsJoin [a] " " = a) ∧
    (∀ (a b : String) (rest : List String),
      stringsJoin (a :: b :: rest) " " = a ++ " " ++ stringsJoin (b :: rest) " ") ∧
    Values.Encode (StoriesQuery.Query { Filter := ["owner:dv", "state:started"] }) =
      "filter=owner%3Adv+state%3Astarted" ∧
    Values.Encode (StoriesQuery.Query { Filter := ["owner:dv"] }) = "filter=owner%3Adv" := by
  have hl : Values.lookup q.Query "filter" = some [stringsJoin q.Filter " "] := by
    simp only [StoriesQuery.Query, Values.lookup_ite_Set]
    simp [Values.empty, Values.lookup, h]
  refine ⟨hl, ?_, Values.Encode_eq_intercalate _, ?_, fun a => rfl,
    fun a b rest => stringsJoin_cons_cons a b rest " ", by decide, by decide⟩
  · simp only [Values.encodeParts, List.mem_flatMap, List.mem_map]
    refine ⟨"filter", ?_, stringsJoin q.Filter " ", ?_, ?_⟩
    · rw [Values.mem_sortedKeys_iff, hl]; simp
    · simp [hl]
    · have e : QueryEscape "filter" ++ "=" = "filter=" := by decide
      rw [e]
  · have e : StoriesQuery.Query { Filter := q.Filter } =
        [("filter", [stringsJoin q.Filter " "])] := by
      simp [StoriesQuery.Query, Values.empty, Values.Set, h, Time.IsZero, Time.zero]
    rw [e, Values.Encode_singleton]
    have e : QueryEscape "filter" ++ "=" = "filter=" := by decide
    rw [e]

theorem StoriesQuery_filter_joined_witness :
    ({ Filter := ["owner:dv", "state:started"] } : StoriesQuery).Filter ≠ [] ∧
    Values.lookup (StoriesQuery.Query { Filter := ["owner:dv", "state:started"] }) "filter" =
      some [stringsJoin ["owner:dv", "state:started"] " "] :=
  ⟨by decide, (StoriesQuery_filter_joined { Filter := ["owner:dv", "state:started"] }
    (by decide)).1⟩

/-! ### ActivityQuery -/

theorem ActivityQuery_lookup_other (a : ActivityQuery) (k : String)
    (hk : k ∉ ["limit", "offset", "occurred_before", "occurred_after", "since_version"]) :
    Values.lookup a.Query k = none := by
  simp only [List.mem_cons, List.mem_singleton, not_or, List.not_mem_nil, not_false_eq_true,
    and_true] at hk
  obtain ⟨h1, h2, h3, h4, h5⟩ := hk
  simp only [ActivityQuery.Query, Values.lookup_ite_Set]
  simp [Ne.symm h1, Ne.symm h2, Ne.symm h3, Ne.symm h4, Ne.symm h5, Values.empty,
    Values.lookup]

theorem ActivityQuery_nodup_keys (a : ActivityQuery) : (Values.keys a.Query).Nodup := by
  unfold ActivityQuery.Query
  repeat (first
    | exact List.nodup_nil
    | apply Values.nodup_keys_ite_Set)

theorem ActivityQuery_single (a : ActivityQuery) :
    ∀ k vs, Values.lookup a.Query k = some vs → ∃ x, vs = [x] := by
  unfold ActivityQuery.Query
  repeat (first
    | apply Values.single_ite_Set
    | exact Values.single_empty)

theorem ActivityQuery_escape_key (a : ActivityQuery) (k : String)
    (hk : k ∈ Values.sortedKeys a.Query) : QueryEscape k = k := by
  rw [Values.mem_sortedKeys_iff] at hk
  have hm : k ∈ ["limit", "offset", "occurred_before", "occurred_after",
      "since_version"] := by
    by_contra hn
    exact hk (ActivityQuery_lookup_other a k hn)
  simp only [List.mem_cons, List.mem_singleton, List.not_mem_nil, or_false] at hm
  rcases hm with h | h | h | h | h <;> subst h <;> decide

/-- C4: `ActivityQuery.Query` holds one entry for each non-zero field, with
the decimal rendering of the field, and nothing else; a `TaskQuery` has no
parameters. -/
theorem ActivityQuery_Query_entries (a : ActivityQuery) (t : TaskQuery) :
    (Values.lookup a.Query "limit" = if a.Limit ≠ 0 then some [sprintInt a.Limit] else none) ∧
    (Values.lookup a.Query "offset" =
      if a.Offset ≠ 0 then some [sprintInt a.Offset] else none) ∧
    (Values.lookup a.Query "occurred_before" =
      if a.OccurredBefore ≠ 0 then some [sprintInt a.OccurredBefore] else none) ∧
    (Values.lookup a.Query "occurred_after" =
      if a.OccurredAfter ≠ 0 then some [sprintInt a.OccurredAfter] else none) ∧
    (Values.lookup a.Query "since_version" =
      if a.SinceVersion ≠ 0 then some [sprintInt a.SinceVersion] else none) ∧
    (∀ k, k ∉ ["limit", "offset", "occurred_before", "occurred_after", "since_version"] →
      Values.lookup a.Query k = none) ∧
    (Values.keys a.Query).Nodup ∧
    Values.Encode (ActivityQuery.Query
      { Limit := 2, Offset := 1, OccurredBefore := 1433091819000,
        OccurredAfter := 1000000000000, SinceVersion := 1 }) =
      "limit=2&occurred_after=1000000000000&occurred_before=1433091819000&offset=1&since_version=1" ∧
    Values.Encode (ActivityQuery.Query {}) = "" ∧
    Values.Encode t.Query = "" := by
  refine ⟨?_, ?_, ?_, ?_, ?_, ActivityQuery_lookup_other a, ActivityQuery_nodup_keys a,
    by decide, by decide, rfl⟩ <;>
  · simp only [ActivityQuery.Query, Values.lookup_ite_Set]
    simp [Values.empty, Values.lookup]

/-- C3: the encoded form of a stories or activity query lists each emitted
key once, in strictly ascending order, as `key=value` segments joined by `&`,
and any parameter set with the same entries, in whatever order they were set,
encodes to the same string. -/
theorem Query_Encode_key_ordered (q : StoriesQuery) (a : ActivityQuery) :
    (Values.Encode q.Query = "&".intercalate
      ((Values.sortedKeys q.Query).map
        (fun k => k ++ "=" ++ QueryEscape (Values.Get q.Query k)))) ∧
    (Values.sortedKeys q.Query).Pairwise strLt ∧
    (∀ k, k ∈ Values.sortedKeys q.Query ↔ Values.lookup q.Query k ≠ none) ∧
    (∀ w : Values, (Values.keys w).Nodup →
      (∀ k, Values.lookup w k = Values.lookup q.Query k) →
      Values.Encode w = Values.Encode q.Query) ∧
    (Values.Encode a.Query = "&".intercalate
      ((Values.sortedKeys a.Query).map
        (fun k => k ++ "=" ++ QueryEscape (Values.Get a.Query k)))) ∧
    (Values.sortedKeys a.Query).Pairwise strLt ∧
    (∀ k, k ∈ Values.sortedKeys a.Query ↔ Values.lookup a.Query k ≠ none) ∧
    (∀ w : Values, (Values.keys w).Nodup →
      (∀ k, Values.lookup w k = Values.lookup a.Query k) →
      Values.Encode w = Values.Encode a.Query) := by
  refine ⟨?_, Values.sortedKeys_strict _ (StoriesQuery_nodup_keys q),
    Values.mem_sortedKeys_iff _,
    fun w hw h => Values.Encode_congr _ w (StoriesQuery_nodup_keys q) hw h,
    ?_, Values.sortedKeys_strict _ (ActivityQuery_nodup_keys a),
    Values.mem_sortedKeys_iff _,
    fun w hw h => Values.Encode_congr _ w (ActivityQuery_nodup_keys a) hw h⟩
  · rw [Values.Encode_single _ (StoriesQuery_single q)]
    congr 1
    apply List.map_congr_left
    intro k hk
    rw [StoriesQuery_escape_key q k hk]
  · rw [Values.Encode_single _ (ActivityQuery_single a)]
    congr 1
    apply List.map_congr_left
    intro k hk
    rw [ActivityQuery_escape_key a k hk]

/-! ## strconv.Atoi -/

theorem digits_foldl_ge (cs : List Char) (n : Nat) :
    n ≤ cs.foldl (fun acc c => acc * 10 + (c.toNat - 48)) n := by
  induction cs generalizing n with
  | nil => exact Nat.le_refl n
  | cons c cs ih =>
    simp only [List.foldl_cons]
    exact Nat.le_trans (by omega) (ih (n * 10 + (c.toNat - 48)))

theorem parseDigits_ok (cs : List Char) (n : Nat) (ha : cs.all Char.isDigit = true)
    (hv : cs.foldl (fun acc c => acc * 10 + (c.toNat - 48)) n ≤ maxUint64) :
    parseDigits cs n = .ok (cs.foldl (fun acc c => acc * 10 + (c.toNat - 48)) n) := by
  induction cs generalizing n with
  | nil => rfl
  | cons c cs ih =>
    simp only [List.all_cons, Bool.and_eq_true] at ha
    simp only [List.foldl_cons] at hv ⊢
    have hge := digits_foldl_ge cs (n * 10 + (c.toNat - 48))
    have h1 : ¬ n ≥ maxUint64 / 10 + 1 := by
      unfold maxUint64 at hv ⊢
      omega
    have h2 : ¬ n * 10 + (c.toNat - 48) > maxUint64 := by omega
    simp only [parseDigits, ha.1, if_true, h1, h2, if_false]
    exact ih _ ha.2 hv

theorem parseDigits_bad (cs : List Char) (n : Nat) (ha : cs.all Char.isDigit = false) :
    ∃ e, parseDigits cs n = .error e := by
  induction cs generalizing n with
  | nil => simp at ha
  | cons c cs ih =>
    by_cases hc : c.isDigit = true
    · have hrest : cs.all Char.isDigit = false := by
        simpa [List.all_cons, hc] using ha
      simp only [parseDigits, hc, if_true]
      by_cases h1 : n ≥ maxUint64 / 10 + 1
      · exact ⟨_, if_pos h1⟩
      · rw [if_neg h1]
        by_cases h2 : n * 10 + (c.toNat - 48) > maxUint64
        · exact ⟨_, if_pos h2⟩
        · rw [if_neg h2]
          exact ih _ hrest
    · exact ⟨"invalid syntax", by simp [parseDigits, hc]⟩

theorem atoiCore_bad (s : String) (neg : Bool) (digits : List Char)
    (h : (decide (digits ≠ []) && digits.all Char.isDigit) = false) :
    ∃ e, atoiCore s neg digits = .error e := by
  unfold atoiCore
  by_cases hd : digits = []
  · exact ⟨_, if_pos hd⟩
  · have ha : digits.all Char.isDigit = false := by simpa [hd] using h
    obtain ⟨e, he⟩ := parseDigits_bad digits 0 ha
    rw [if_neg hd, he]
    exact ⟨_, rfl⟩

theorem pow_intSize : (2 : Nat) ^ (intSize - 1) = 9223372036854775808 := by
  norm_num [intSize]

theorem atoiCore_pos (s : String) (digits : List Char)
    (h : (decide (digits ≠ []) && digits.all Char.isDigit) = true)
    (hr : fitsInt (digitsValue digits)) :
    atoiCore s false digits = .ok (digitsValue digits) := by
  unfold atoiCore
  have hd : digits ≠ [] := by
    intro e; simp [e] at h
  have ha : digits.all Char.isDigit = true := by simpa [hd] using h
  have h2 : ¬ digitsValue digits ≥ 2 ^ (intSize - 1) := by
    have := hr.2
    intro hge
    have : ((2 ^ (intSize - 1) : Nat) : Int) ≤ (digitsValue digits : Int) := by exact_mod_cast hge
    simp only [Nat.cast_pow, Nat.cast_ofNat] at this
    omega
  have hv : digitsValue digits ≤ maxUint64 := by
    rw [pow_intSize] at h2
    unfold maxUint64
    omega
  unfold digitsValue at h2 hv ⊢
  rw [if_neg hd, parseDigits_ok digits 0 ha hv]
  simp only [Bool.false_eq_true, if_false, h2]

theorem atoiCore_neg (s : String) (digits : List Char)
    (h : (decide (digits ≠ []) && digits.all Char.isDigit) = true)
    (hr : fitsInt (-(digitsValue digits : Int))) :
    atoiCore s true digits = .ok (-(digitsValue digits : Int)) := by
  unfold atoiCore
  have hd : digits ≠ [] := by
    intro e; simp [e] at h
  have ha : digits.all Char.isDigit = true := by simpa [hd] using h
  have h2 : ¬ digitsValue digits > 2 ^ (intSize - 1) := by
    have := hr.1
    intro hge
    have : ((2 ^ (intSize - 1) : Nat) : Int) < (digitsValue digits : Int) := by exact_mod_cast hge
    simp only [Nat.cast_pow, Nat.cast_ofNat] at this
    omega
  have hv : digitsValue digits ≤ maxUint64 := by
    rw [pow_intSize] at h2
    unfold maxUint64
    omega
  unfold digitsValue at h2 hv ⊢
  rw [if_neg hd, parseDigits_ok digits 0 ha hv]
  simp only [if_true, h2, if_false]

/-- `Atoi` rejects a text that is not a decimal integer. -/
theorem Atoi_not_integer (s : String) (h : isIntegerText s = false) :
    ∃ e, Atoi s = .error e := by
  unfold isIntegerText at h
  unfold Atoi
  split
  · rename_i rest heq
    rw [heq] at h
    exact atoiCore_bad s true rest h
  · rename_i rest heq
    rw [heq] at h
    exact atoiCore_bad s false rest h
  · rename_i cs h1 h2
    split at h
    · rename_i rest heq
      exact absurd heq (h1 rest)
    · rename_i rest heq
      exact absurd heq (h2 rest)
    · exact atoiCore_bad s false _ h

/-- `Atoi` returns the integer a decimal integer text denotes when it fits
an `int`. -/
theorem Atoi_integer (s : String) (h : isIntegerText s = true) (hr : fitsInt (integerValue s)) :
    Atoi s = .ok (integerValue s) := by
  unfold isIntegerText at h
  unfold integerValue at hr ⊢
  unfold Atoi
  split
  · rename_i rest heq
    rw [heq] at h hr
    exact atoiCore_neg s rest h hr
  · rename_i rest heq
    rw [heq] at h hr
    exact atoiCore_pos s rest h hr
  · rename_i cs h1 h2
    split at h
    · rename_i rest heq
      exact absurd heq (h1 rest)
    · rename_i rest heq
      exact absurd heq (h2 rest)
    · have e : (match s.data with
          | '-' :: rest => -(digitsValue rest : Int)
          | '+' :: rest => (digitsValue rest : Int)
          | cs => (digitsValue cs : Int)) = (digitsValue s.data : Int) := by
        split
        · rename_i rest heq
          exact absurd heq (h1 rest)
        · rename_i rest heq
          exact absurd heq (h2 rest)
        · rfl
      rw [e] at hr
      exact atoiCore_pos s _ h hr

/-! ## connection.go -/

theorem string_eq_empty_of_length (s : String) (h : ¬ s.length > 0) : s = "" := by
  apply String.ext
  have : s.data.length = 0 := by
    have := h
    simp only [String.length] at this
    omega
  simpa using List.length_eq_zero.mp this

theorem requestFailed_ne_invalidToken (status body : String) :
    "request failed (" ++ status ++ "): " ++ body ≠ "invalid token" := by
  intro h
  have h2 := congrArg (fun s => s.data.head?) h
  simp [String.data_append] at h2

theorem sendRequest_success (c : connection) (request : Request) (resp : Response)
    (hc : c.client request = .ok resp)
    (hs : resp.StatusCode = 200 ∨ resp.StatusCode = 201 ∨ resp.StatusCode = 204) :
    c.sendRequest request = .ok resp := by
  unfold connection.sendRequest
  rw [hc]
  simp only [StatusUnauthorized, StatusOK, StatusCreated, StatusNoContent]
  rcases hs with h | h | h <;> simp [h]

theorem sendRequest_unauthorized (c : connection) (request : Request) (resp : Response)
    (hc : c.client request = .ok resp) (hs : resp.StatusCode = 401) :
    c.sendRequest request = .error (.errorString "invalid token") := by
  unfold connection.sendRequest
  rw [hc]
  simp [StatusUnauthorized, hs]

theorem sendRequest_failed (c : connection) (request : Request) (resp : Response)
    (hc : c.client request = .ok resp)
    (h200 : resp.StatusCode ≠ 200) (h201 : resp.StatusCode ≠ 201)
    (h204 : resp.StatusCode ≠ 204) (h401 : resp.StatusCode ≠ 401) :
    c.sendRequest request =
      .error (.errorString ("request failed (" ++ resp.Status ++ "): " ++ resp.Body)) := by
  unfold connection.sendRequest
  rw [hc]
  simp [StatusUnauthorized, StatusOK, StatusCreated, StatusNoContent, h200, h201, h204, h401]

theorem Do_of_sendRequest_error {β : Type} (c : connection)
    (Decode : String → β → β × Option String) (request : Request) (out : Option β)
    (err : Error) (h : c.sendRequest request = .error err) :
    c.Do Decode request out = ({}, some err, out) := by
  unfold connection.Do
  rw [h]

/-- C5: a 401 response, whatever its body and headers, makes `sendRequest`
and `Do` fail with the error `invalid token`; `Do` returns the zero
`Pagination` and leaves the output as it was, whatever the decoder would do. -/
theorem Do_unauthorized_invalid_token {β : Type} (c : connection)
    (Decode : String → β → β × Option String) (request : Request) (out : Option β)
    (resp : Response) (hc : c.client request = .ok resp) (hs : resp.StatusCode = 401) :
    c.sendRequest request = .error (.errorString "invalid token") ∧
    c.Do Decode request out = ({}, some (.errorString "invalid token"), out) :=
  ⟨sendRequest_unauthorized c request resp hc hs,
    Do_of_sendRequest_error c Decode request out _
      (sendRequest_unauthorized c request resp hc hs)⟩

theorem Do_unauthorized_invalid_token_witness :
    (answering unauthorized).client meRequest = .ok unauthorized ∧
    unauthorized.StatusCode = 401 ∧
    (answering unauthorized).Do failingDecode meRequest (some ({} : Person)) =
      ({}, some (.errorString "invalid token"), some {}) :=
  ⟨rfl, rfl, (Do_unauthorized_invalid_token (answering unauthorized) failingDecode meRequest
    (some ({} : Person)) unauthorized rfl rfl).2⟩

/-- C6: a completed call is classified by the status code alone: success
exactly for 200, 201 and 204, `invalid token` exactly for 401, and for every
other status the error `request failed (...)` with the status text and the
body. -/
theorem sendRequest_classification (c : connection) (request : Request) (resp : Response)
    (hc : c.client request = .ok resp) :
    (c.sendRequest request = .ok resp ↔
      (resp.StatusCode = 200 ∨ resp.StatusCode = 201 ∨ resp.StatusCode = 204)) ∧
    ((∃ r, c.sendRequest request = .ok r) ↔
      (resp.StatusCode = 200 ∨ resp.StatusCode = 201 ∨ resp.StatusCode = 204)) ∧
    (c.sendRequest request = .error (.errorString "invalid token") ↔
      resp.StatusCode = 401) ∧
    (resp.StatusCode ≠ 200 → resp.StatusCode ≠ 201 → resp.StatusCode ≠ 204 →
      resp.StatusCode ≠ 401 →
      c.sendRequest request =
        .error (.errorString ("request failed (" ++ resp.Status ++ "): " ++ resp.Body))) := by
  by_cases h401 : resp.StatusCode = 401
  · have e := sendRequest_unauthorized c request resp hc h401
    simp [e, h401]
  · by_cases hs : resp.StatusCode = 200 ∨ resp.StatusCode = 201 ∨ resp.StatusCode = 204
    · have e := sendRequest_success c request resp hc hs
      simp only [e, hs, h401]
      simp
      intro h1 h2 h3
      rcases hs with h | h | h
      · exact absurd h h1
      · exact absurd h h2
      · exact absurd h h3
    · have hs' := hs
      simp only [not_or] at hs'
      have e := sendRequest_failed c request resp hc hs'.1 hs'.2.1 hs'.2.2 h401
      simp only [e, hs, h401]
      simp
      exact requestFailed_ne_invalidToken _ _

theorem sendRequest_classification_witness :
    (answering serverErrorBody).client meRequest = .ok serverErrorBody ∧
    (answering serverErrorBody).sendRequest meRequest =
      .error (.errorString "request failed (500 Internal Server Error): boom") :=
  ⟨rfl, (sendRequest_classification (answering serverErrorBody) meRequest serverErrorBody
    rfl).2.2.2 (by decide) (by decide) (by decide) (by decide)⟩

/-- What the code returns for a response whose status is none of 200, 201,
204 and 401: the error of `sendRequest` and of `Do` has the text
`request failed (S): B` with `S` the status text of the response and `B` its
body; `Do` returns the zero `Pagination` and leaves the output alone. -/
theorem Do_request_failed_text {β : Type} (c : connection)
    (Decode : String → β → β × Option String) (request : Request) (out : Option β)
    (resp : Response) (hc : c.client request = .ok resp)
    (h200 : resp.StatusCode ≠ 200) (h201 : resp.StatusCode ≠ 201)
    (h204 : resp.StatusCode ≠ 204) (h401 : resp.StatusCode ≠ 401) :
    c.sendRequest request =
      .error (.errorString ("request failed (" ++ resp.Status ++ "): " ++ resp.Body)) ∧
    c.Do Decode request out =
      ({}, some (.errorString ("request failed (" ++ resp.Status ++ "): " ++ resp.Body)), out) :=
  ⟨sendRequest_failed c request resp hc h200 h201 h204 h401,
    Do_of_sendRequest_error c Decode request out _
      (sendRequest_failed c request resp hc h200 h201 h204 h401)⟩

theorem Do_request_failed_text_witness :
    (answering serverErrorBody).client meRequest = .ok serverErrorBody ∧
    serverErrorBody.StatusCode = 500 ∧
    (answering serverErrorBody).Do failingDecode meRequest (some ({} : Person)) =
      ({}, some (.errorString "request failed (500 Internal Server Error): boom"), some {}) :=
  ⟨rfl, rfl, (Do_request_failed_text (answering serverErrorBody) failingDecode meRequest
    (some ({} : Person)) serverErrorBody rfl (by decide) (by decide) (by decide)
    (by decide)).2⟩

/-- C7: the code at the failing input. A 500 response with status text
`500 Internal Server Error` and body `boom` gives the error text
`request failed (500 Internal Server Error): boom`: the status text stands
where the claim, like the tests, has the numeric status code, so the text is
not `request failed (500): boom`. -/
theorem request_failed_text_not_numeric :
    serverErrorBody.StatusCode = 500 ∧ serverErrorBody.Body = "boom" ∧
    (answering serverErrorBody).sendRequest meRequest =
      .error (.errorString "request failed (500 Internal Server Error): boom") ∧
    (answering serverErrorBody).sendRequest meRequest ≠
      .error (.errorString ("request failed (500): " ++ serverErrorBody.Body)) ∧
    ((answering serverErrorBody).Do failingDecode meRequest (some ({} : Person))).2.1 ≠
      some (.errorString ("request failed (" ++ sprintInt serverErrorBody.StatusCode ++
        "): " ++ serverErrorBody.Body)) := by
  decide

/-- C8: when the server answers `Client.Me` with status 500 and an empty
body, the error is `request failed (500 Internal Server Error): `, not the
text `request failed (500)` the test expects. -/
theorem Me_server_error_text :
    serverError.StatusCode = 500 ∧ serverError.Body = "" ∧
    (Client.Me ⟨answering serverError⟩ defaultEnv failingDecode).2 =
      some (.errorString "request failed (500 Internal Server Error): ") ∧
    (Client.Me ⟨answering serverError⟩ defaultEnv failingDecode).2 ≠
      some (.errorString "request failed (500)") := by
  decide

/-- Whatever the status text and the body of a response are, the error text
`sendRequest` builds for a failed request is not `request failed (500)`. -/
theorem requestFailed_ne_bare (status body : String) :
    "request failed (" ++ status ++ "): " ++ body ≠ "request failed (500)" := by
  intro h
  have h2 : ("request failed (" ++ status ++ "): " ++ body).data =
      "request failed (500)".data := congrArg String.data h
  have h4 : "request failed (500)".data = "request failed (".data ++ "500)".data := by decide
  rw [String.data_append, String.data_append, String.data_append, h4, List.append_assoc,
    List.append_assoc] at h2
  have h5 := List.append_cancel_left h2
  have hin : ' ' ∈ status.data ++ ("): ".data ++ body.data) := by
    simp only [List.mem_append]
    right; left; decide
  rw [h5] at hin
  revert hin
  decide

/-- For a response whose status is none of 200, 201, 204 and 401, whatever
its status text and body, the error of `sendRequest` is not
`request failed (500)`. -/
theorem sendRequest_never_bare_text (c : connection) (request : Request) (resp : Response)
    (hc : c.client request = .ok resp)
    (h200 : resp.StatusCode ≠ 200) (h201 : resp.StatusCode ≠ 201)
    (h204 : resp.StatusCode ≠ 204) (h401 : resp.StatusCode ≠ 401) :
    c.sendRequest request ≠ .error (.errorString "request failed (500)") := by
  rw [sendRequest_failed c request resp hc h200 h201 h204 h401]
  intro h
  injection h with h
  injection h with h
  exact requestFailed_ne_bare _ _ h

/-! ### Pagination headers -/

theorem paginationField_ok (resp : Response) (header : String)
    (h : headerOK (resp.Header.Get header)) :
    paginationField resp header = .ok (headerValue (resp.Header.Get header)) := by
  unfold paginationField headerValue
  by_cases he : resp.Header.Get header = ""
  · simp [he]
  · have hl : (resp.Header.Get header).length > 0 := by
      by_contra hn
      exact he (string_eq_empty_of_length _ hn)
    rcases h with h | ⟨h1, h2⟩
    · exact absurd h he
    · simp only [hl, if_true, he, if_false]
      exact Atoi_integer _ h1 h2

theorem paginationField_bad (resp : Response) (header : String)
    (hne : resp.Header.Get header ≠ "")
    (h : isIntegerText (resp.Header.Get header) = false) :
    ∃ e, paginationField resp header = .error e := by
  unfold paginationField
  have hl : (resp.Header.Get header).length > 0 := by
    by_contra hn
    exact hne (string_eq_empty_of_length _ hn)
  simp only [hl, if_true]
  exact Atoi_not_integer _ h

/-- C9, as the code has it: for a response with status 200, 201 or 204 in
which each of the four pagination headers is absent, empty, or a decimal
integer that fits an `int`, the `Pagination` returned by `Do` has in each
field the integer its own header denotes, and 0 when that header is absent or
empty. -/
theorem Do_pagination_of_headers {β : Type} (c : connection)
    (Decode : String → β → β × Option String) (request : Request) (out : Option β)
    (resp : Response) (hc : c.client request = .ok resp)
    (hs : resp.StatusCode = 200 ∨ resp.StatusCode = 201 ∨ resp.StatusCode = 204)
    (hT : headerOK (resp.Header.Get "X-Tracker-Pagination-Total"))
    (hO : headerOK (resp.Header.Get "X-Tracker-Pagination-Offset"))
    (hL : headerOK (resp.Header.Get "X-Tracker-Pagination-Limit"))
    (hR : headerOK (resp.Header.Get "X-Tracker-Pagination-Returned")) :
    (c.Do Decode request out).1 =
      { Total := headerValue (resp.Header.Get "X-Tracker-Pagination-Total"),
        Offset := headerValue (resp.Header.Get "X-Tracker-Pagination-Offset"),
        Limit := headerValue (resp.Header.Get "X-Tracker-Pagination-Limit"),
        Returned := headerValue (resp.Header.Get "X-Tracker-Pagination-Returned") } := by
  unfold connection.Do
  rw [sendRequest_success c request resp hc hs]
  simp only [paginationTotalHeader, paginationOffsetHeader, paginationLimitHeader,
    paginationReturnedHeader]
  rw [paginationField_ok resp _ hT, paginationField_ok resp _ hO,
    paginationField_ok resp _ hL, paginationField_ok resp _ hR]
  cases out <;> rfl

theorem Do_pagination_of_headers_witness :
    (answering paginated).client meRequest = .ok paginated ∧
    paginated.StatusCode = 200 ∧
    ((answering paginated).Do failingDecode meRequest (some ({} : Person))).1 =
      { Total := 1, Offset := 2, Limit := 3, Returned := 4 } ∧
    ((answering unpaginated).Do failingDecode meRequest (some ({} : Person))).1 = {} :=
  ⟨rfl, rfl,
    Do_pagination_of_headers (answering paginated) failingDecode meRequest
      (some ({} : Person)) paginated rfl (by decide) (by decide) (by decide) (by decide)
      (by decide),
    Do_pagination_of_headers (answering unpaginated) failingDecode meRequest
      (some ({} : Person)) unpaginated rfl (by decide) (by decide) (by decide) (by decide)
      (by decide)⟩

/-- C9, as claimed, fails: in a 200 response whose `Total` header is `1` and
whose `Offset` header is `9223372036854775808`, both headers are present and
decimal integers, yet `Do` fails and returns the zero `Pagination`: `Total`
is 0, not 1, and `Offset` is 0, not 2^63. -/
theorem pagination_lost_on_huge_header :
    hugeOffset.StatusCode = 200 ∧
    hugeOffset.Header.Get "X-Tracker-Pagination-Total" = "1" ∧
    isIntegerText "1" = true ∧ integerValue "1" = 1 ∧
    hugeOffset.Header.Get "X-Tracker-Pagination-Offset" = "9223372036854775808" ∧
    isIntegerText "9223372036854775808" = true ∧
    integerValue "9223372036854775808" = 9223372036854775808 ∧
    (answering hugeOffset).Do failingDecode meRequest (some ({} : Person)) =
      ({}, some (.numError "Atoi" "9223372036854775808" "value out of range"), some {}) ∧
    ((answering hugeOffset).Do failingDecode meRequest (some ({} : Person))).1.Total ≠ 1 ∧
    ((answering hugeOffset).Do failingDecode meRequest (some ({} : Person))).1.Offset ≠
      9223372036854775808 := by
  decide

/-- C10: for a response with status 200, 201 or 204 in which one of the four
pagination headers has a non-empty value that is not a decimal integer, `Do`
returns an error with the zero `Pagination` and leaves the output as it was,
whatever the decoder would do with the body. -/
theorem Do_fails_on_bad_header {β : Type} (c : connection)
    (Decode : String → β → β × Option String) (request : Request) (out : Option β)
    (resp : Response) (hc : c.client request = .ok resp)
    (hs : resp.StatusCode = 200 ∨ resp.StatusCode = 201 ∨ resp.StatusCode = 204)
    (hbad : ∃ header ∈ ["X-Tracker-Pagination-Total", "X-Tracker-Pagination-Offset",
        "X-Tracker-Pagination-Limit", "X-Tracker-Pagination-Returned"],
      resp.Header.Get header ≠ "" ∧ isIntegerText (resp.Header.Get header) = false) :
    ∃ err, c.Do Decode request out = ({}, some err, out) := by
  obtain ⟨header, hmem, hne, hni⟩ := hbad
  obtain ⟨e0, hf⟩ := paginationField_bad resp header hne hni
  unfold connection.Do
  rw [sendRequest_success c request resp hc hs]
  simp only [paginationTotalHeader, paginationOffsetHeader, paginationLimitHeader,
    paginationReturnedHeader]
  simp only [List.mem_cons, List.mem_singleton, List.not_mem_nil, or_false] at hmem
  cases h1 : paginationField resp "X-Tracker-Pagination-Total" with
  | error e => exact ⟨e, rfl⟩
  | ok total =>
    cases h2 : paginationField resp "X-Tracker-Pagination-Offset" with
    | error e => exact ⟨e, rfl⟩
    | ok offset =>
      cases h3 : paginationField resp "X-Tracker-Pagination-Limit" with
      | error e => exact ⟨e, rfl⟩
      | ok limit =>
        cases h4 : paginationField resp "X-Tracker-Pagination-Returned" with
        | error e => exact ⟨e, rfl⟩
        | ok returned =>
          exfalso
          rcases hmem with h | h | h | h <;> subst h
          · rw [h1] at hf; cases hf
          · rw [h2] at hf; cases hf
          · rw [h3] at hf; cases hf
          · rw [h4] at hf; cases hf

theorem Do_fails_on_bad_header_witness :
    (answering badOffset).client meRequest = .ok badOffset ∧
    badOffset.StatusCode = 200 ∧
    badOffset.Header.Get "X-Tracker-Pagination-Offset" = "x" ∧
    ∃ err, (answering badOffset).Do failingDecode meRequest (some ({} : Person)) =
      ({}, some err, some {}) :=
  ⟨rfl, rfl, by decide,
    Do_fails_on_bad_header (answering badOffset) failingDecode meRequest
      (some ({} : Person)) badOffset rfl (by decide)
      ⟨"X-Tracker-Pagination-Offset", by decide, by decide, by decide⟩⟩

/-! ## The comment body is well-formed JSON -/

theorem jsonIsHex_lowerhex (d : Nat) (h : d < 16) : jsonIsHex (lowerhex d) = true := by
  interval_cases d <;> decide

theorem readValueLoop_cont (s s2 : Scanner) (c : Char) (cs : List Char) (n : Nat)
    (h : s.stepChar c = (.cont, s2)) :
    readValueLoop s (c :: cs) n = readValueLoop s2 cs (n + 1) := by
  simp only [readValueLoop, h]

/-- Scanning the escaped form of one character inside a string leaves the
scanner inside the string. -/
theorem readValueLoop_escapeChar (st : List ParseState) (c : Char) (rest : List Char)
    (n : Nat) :
    readValueLoop { step := .inString, parseState := st } (jsonEscapeChar c ++ rest) n =
      readValueLoop { step := .inString, parseState := st } rest
        (n + (jsonEscapeChar c).length) := by
  have bsq : ¬ Char.ofNat 92 = Char.ofNat 34 := by decide
  have stepBs : ∀ st2 : List ParseState,
      Scanner.stepChar { step := .inString, parseState := st2 } (Char.ofNat 92) =
        (.cont, { step := .inStringEsc, parseState := st2 }) := by
    intro st2
    simp [Scanner.stepChar, bsq]
  unfold jsonEscapeChar
  simp only []
  by_cases h1 : c.toNat = 34 ∨ c.toNat = 92
  · rw [if_pos h1]
    have hc : c = Char.ofNat 34 ∨ c = Char.ofNat 92 := by
      rcases h1 with h | h
      · left; exact char_eq_of_toNat_eq _ _ (by rw [h]; decide)
      · right; exact char_eq_of_toNat_eq _ _ (by rw [h]; decide)
    have step2 : Scanner.stepChar { step := .inStringEsc, parseState := st } c =
        (.cont, { step := .inString, parseState := st }) := by
      rcases hc with h | h <;> subst h <;> simp [Scanner.stepChar]
    simp only [List.cons_append, List.nil_append, List.length_cons, List.length_nil]
    rw [readValueLoop_cont _ _ _ _ _ (stepBs st), readValueLoop_cont _ _ _ _ _ step2]
  · rw [if_neg h1]
    have stepEsc : ∀ (x : Char), (x = 'n' ∨ x = 'r' ∨ x = 't') →
        Scanner.stepChar { step := .inStringEsc, parseState := st } x =
          (.cont, { step := .inString, parseState := st }) := by
      intro x hx
      rcases hx with h | h | h <;> subst h <;> simp [Scanner.stepChar]
    have stepU : Scanner.stepChar { step := .inStringEsc, parseState := st } 'u' =
        (.cont, { step := .inStringEscU, parseState := st }) := by
      simp [Scanner.stepChar]
    have hex0 : ∀ (x : Char), jsonIsHex x = true →
        Scanner.stepChar { step := .inStringEscU, parseState := st } x =
          (.cont, { step := .inStringEscU1, parseState := st }) := by
      intro x hx; simp [Scanner.stepChar, hx]
    have hex1 : ∀ (x : Char), jsonIsHex x = true →
        Scanner.stepChar { step := .inStringEscU1, parseState := st } x =
          (.cont, { step := .inStringEscU12, parseState := st }) := by
      intro x hx; simp [Scanner.stepChar, hx]
    have hex2 : ∀ (x : Char), jsonIsHex x = true →
        Scanner.stepChar { step := .inStringEscU12, parseState := st } x =
          (.cont, { step := .inStringEscU123, parseState := st }) := by
      intro x hx; simp [Scanner.stepChar, hx]
    have hex3 : ∀ (x : Char), jsonIsHex x = true →
        Scanner.stepChar { step := .inStringEscU123, parseState := st } x =
          (.cont, { step := .inString, parseState := st }) := by
      intro x hx; simp [Scanner.stepChar, hx]
    have hmod : jsonIsHex (lowerhex (c.toNat % 16)) = true :=
      jsonIsHex_lowerhex _ (Nat.mod_lt _ (by decide))
    by_cases h2 : c.toNat = 10
    · rw [if_pos h2]
      simp only [List.cons_append, List.nil_append, List.length_cons, List.length_nil]
      rw [readValueLoop_cont _ _ _ _ _ (stepBs st),
        readValueLoop_cont _ _ _ _ _ (stepEsc 'n' (Or.inl rfl))]
    · rw [if_neg h2]
      by_cases h3 : c.toNat = 13
      · rw [if_pos h3]
        simp only [List.cons_append, List.nil_append, List.length_cons, List.length_nil]
        rw [readValueLoop_cont _ _ _ _ _ (stepBs st),
          readValueLoop_cont _ _ _ _ _ (stepEsc 'r' (Or.inr (Or.inl rfl)))]
      · rw [if_neg h3]
        by_cases h4 : c.toNat = 9
        · rw [if_pos h4]
          simp only [List.cons_append, List.nil_append, List.length_cons, List.length_nil]
          rw [readValueLoop_cont _ _ _ _ _ (stepBs st),
            readValueLoop_cont _ _ _ _ _ (stepEsc 't' (Or.inr (Or.inr rfl)))]
        · rw [if_neg h4]
          by_cases h5 : c.toNat < 32 ∨ c = '<' ∨ c = '>' ∨ c = '&'
          · rw [if_pos h5]
            have hdiv : jsonIsHex (lowerhex (c.toNat / 16)) = true := by
              apply jsonIsHex_lowerhex
              rcases h5 with h | h | h | h
              · omega
              · subst h; decide
              · subst h; decide
              · subst h; decide
            simp only [List.cons_append, List.nil_append, List.length_cons, List.length_nil]
            rw [readValueLoop_cont _ _ _ _ _ (stepBs st), readValueLoop_cont _ _ _ _ _ stepU,
              readValueLoop_cont _ _ _ _ _ (hex0 '0' (by decide)),
              readValueLoop_cont _ _ _ _ _ (hex1 '0' (by decide)),
              readValueLoop_cont _ _ _ _ _ (hex2 _ hdiv),
              readValueLoop_cont _ _ _ _ _ (hex3 _ hmod)]
          · rw [if_neg h5]
            by_cases h6 : c.toNat = 0x2028 ∨ c.toNat = 0x2029
            · rw [if_pos h6]
              simp only [List.cons_append, List.nil_append, List.length_cons, List.length_nil]
              rw [readValueLoop_cont _ _ _ _ _ (stepBs st),
                readValueLoop_cont _ _ _ _ _ stepU,
                readValueLoop_cont _ _ _ _ _ (hex0 '2' (by decide)),
                readValueLoop_cont _ _ _ _ _ (hex1 '0' (by decide)),
                readValueLoop_cont _ _ _ _ _ (hex2 '2' (by decide)),
                readValueLoop_cont _ _ _ _ _ (hex3 _ hmod)]
            · rw [if_neg h6]
              have hq : ¬ c = Char.ofNat 34 := by
                intro h; subst h; exact h1 (Or.inl (by decide))
              have hb : ¬ c = Char.ofNat 92 := by
                intro h; subst h; exact h1 (Or.inr (by decide))
              have hlt : ¬ c.toNat < 32 := fun h => h5 (Or.inl h)
              have step1 : Scanner.stepChar { step := .inString, parseState := st } c =
                  (.cont, { step := .inString, parseState := st }) := by
                simp [Scanner.stepChar, hq, hb, hlt]
              simp only [List.cons_append, List.nil_append, List.length_cons,
                List.length_nil]
              rw [readValueLoop_cont _ _ _ _ _ step1]

theorem readValueLoop_escaped (st : List ParseState) (cs rest : List Char) (n : Nat) :
    readValueLoop { step := .inString, parseState := st }
        (cs.flatMap jsonEscapeChar ++ rest) n =
      readValueLoop { step := .inString, parseState := st } rest
        (n + (cs.flatMap jsonEscapeChar).length) := by
  induction cs generalizing n with
  | nil => rfl
  | cons c cs ih =>
    simp only [List.flatMap_cons, List.append_assoc, List.length_append]
    rw [readValueLoop_escapeChar, ih]
    congr 1
    omega

/-- The body of the comment POST is well-formed JSON, whatever the comment
text is. -/
theorem commentJSON_valid (text : String) : validJSON (commentJSON text) = true := by
  have hdata : (commentJSON text).data =
      [Char.ofNat 123, Char.ofNat 34, 't', 'e', 'x', 't', Char.ofNat 34, ':', Char.ofNat 34] ++
        (text.data.flatMap jsonEscapeChar ++ [Char.ofNat 34, Char.ofNat 125]) := by
    have e1 : "\x7b\"text\":".data =
        [Char.ofNat 123, Char.ofNat 34, 't', 'e', 'x', 't', Char.ofNat 34, ':'] := by decide
    have e2 : "\x7d".data = [Char.ofNat 125] := by decide
    unfold commentJSON jsonString
    rw [String.data_append, String.data_append, e1, e2]
    simp only [List.cons_append, List.nil_append, List.append_assoc]
  have hloop : readValueLoop { step := .beginValue, parseState := [] }
      (commentJSON text).data 0 = some (commentJSON text).data.length := by
    rw [hdata]
    have s1 : Scanner.stepChar { step := .beginValue, parseState := [] } (Char.ofNat 123) =
        (.cont, { step := .beginStringOrEmpty, parseState := [.objectKey] }) := by decide
    have s2 : Scanner.stepChar { step := .beginStringOrEmpty, parseState := [.objectKey] }
        (Char.ofNat 34) = (.cont, { step := .inString, parseState := [.objectKey] }) := by
      decide
    have s3 : ∀ x : Char, x = 't' ∨ x = 'e' ∨ x = 'x' →
        Scanner.stepChar { step := .inString, parseState := [.objectKey] } x =
          (.cont, { step := .inString, parseState := [.objectKey] }) := by
      intro x hx
      rcases hx with h | h | h <;> subst h <;> decide
    have s4 : Scanner.stepChar { step := .inString, parseState := [.objectKey] }
        (Char.ofNat 34) = (.cont, { step := .endValue, parseState := [.objectKey] }) := by
      decide
    have s5 : Scanner.stepChar { step := .endValue, parseState := [.objectKey] } ':' =
        (.cont, { step := .beginValue, parseState := [.objectValue] }) := by decide
    have s6 : Scanner.stepChar { step := .beginValue, parseState := [.objectValue] }
        (Char.ofNat 34) = (.cont, { step := .inString, parseState := [.objectValue] }) := by
      decide
    have s7 : Scanner.stepChar { step := .inString, parseState := [.objectValue] }
        (Char.ofNat 34) = (.cont, { step := .endValue, parseState := [.objectValue] }) := by
      decide
    have s8 : Scanner.stepChar { step := .endValue, parseState := [.objectValue] }
        (Char.ofNat 125) = (.endBracket, { step := .endTop, parseState := [] }) := by decide
    simp only [List.cons_append, List.nil_append]
    rw [readValueLoop_cont _ _ _ _ _ s1, readValueLoop_cont _ _ _ _ _ s2,
      readValueLoop_cont _ _ _ _ _ (s3 't' (Or.inl rfl)),
      readValueLoop_cont _ _ _ _ _ (s3 'e' (Or.inr (Or.inl rfl))),
      readValueLoop_cont _ _ _ _ _ (s3 'x' (Or.inr (Or.inr rfl))),
      readValueLoop_cont _ _ _ _ _ (s3 't' (Or.inl rfl)),
      readValueLoop_cont _ _ _ _ _ s4, readValueLoop_cont _ _ _ _ _ s5,
      readValueLoop_cont _ _ _ _ _ s6, readValueLoop_escaped,
      readValueLoop_cont _ _ _ _ _ s7]
    simp only [readValueLoop, s8]
    have e : (Scanner.endValue { step := .endTop, parseState := [] } ' ').1 = .scanEnd := by
      decide
    simp only [e, if_true, List.length_cons, List.length_append, List.length_nil]
    congr 1
    omega
  unfold validJSON
  rw [hloop]
  simp only [List.drop_length]
  rfl

/-! ## connection.CreateRequest -/

theorem string_append_empty_right (s : String) : s ++ "" = s := by
  apply String.ext
  simp [String.data_append]

theorem Header_Add_token (token : String) :
    Header.Add [] "X-TrackerToken" token = [("X-Trackertoken", [token])] := by
  have e : CanonicalMIMEHeaderKey "X-TrackerToken" = "X-Trackertoken" := by decide
  simp [Header.Add, e, Header.append]

theorem Header_Get_token (token : String) :
    Header.Get [("X-Trackertoken", [token])] "X-TrackerToken" = token := by
  have e : CanonicalMIMEHeaderKey "X-TrackerToken" = "X-Trackertoken" := by decide
  simp [Header.Get, e, Values.lookup]

/-- What `CreateRequest` returns, by whether `http.NewRequest` accepts the
method and the URL it assembles. -/
theorem CreateRequest_eq (c : connection) (env : Env) (method path : String)
    (params : Values) :
    c.CreateRequest env method path params =
      match env.requestError (if method = "" then "GET" else method)
          (env.DefaultURL ++ "/services/v5" ++ path ++
            (if params.Encode = "" then "" else "?" ++ params.Encode)) with
      | some err => .error (.errorString ("failed to create request: " ++ err))
      | none => .ok
          { Method := if method = "" then "GET" else method
            URL := env.DefaultURL ++ "/services/v5" ++ path ++
              (if params.Encode = "" then "" else "?" ++ params.Encode)
            Header := [("X-Trackertoken", [c.token])] } := by
  unfold connection.CreateRequest NewRequest
  by_cases hq : params.Encode = ""
  · simp only [hq, ne_eq, not_true_eq_false, if_false, if_true, string_append_empty_right]
    cases env.requestError (if method = "" then "GET" else method)
        (env.DefaultURL ++ "/services/v5" ++ path) with
    | none => simp [Header_Add_token]
    | some e => rfl
  · simp only [hq, ne_eq, not_false_eq_true, if_true, if_false, String.append_assoc]
    cases env.requestError (if method = "" then "GET" else method)
        (env.DefaultURL ++ ("/services/v5" ++ (path ++ ("?" ++ params.Encode)))) with
    | none => simp [Header_Add_token]
    | some e => rfl

/-- C11, as the code has it: `CreateRequest` calls `http.NewRequest` with the
given method and with the URL text made of the base URL, `/services/v5`, the
path and, only when the encoded parameters are not empty, `?` and the encoded
parameters; a refusal of the library comes back as
`failed to create request: ...`; to the request the library returns it adds
the header `X-TrackerToken` with the token of the connection. So a request it
returns is the one the library builds from that URL text, with the given
method, `GET` when the given method is empty, the token as its only header,
and no body. -/
theorem CreateRequest_request (c : connection) (env : Env) (method path : String)
    (params : Values) (r : Request) (h : c.CreateRequest env method path params = .ok r) :
    c.CreateRequest env method path params =
      (match NewRequest env method (env.DefaultURL ++ "/services/v5" ++ path ++
          (if params.Encode = "" then "" else "?" ++ params.Encode)) with
        | .error err => .error (.errorString ("failed to create request: " ++ err))
        | .ok request =>
          .ok { request with Header := request.Header.Add "X-TrackerToken" c.token }) ∧
    NewRequest env method (env.DefaultURL ++ "/services/v5" ++ path ++
        (if params.Encode = "" then "" else "?" ++ params.Encode)) =
      .ok { r with Header := [] } ∧
    r.Method = (if method = "" then "GET" else method) ∧
    r.Header.Get "X-TrackerToken" = c.token ∧
    r.Header = [("X-Trackertoken", [c.token])] ∧
    r.Body = none := by
  have hcall : c.CreateRequest env method path params =
      (match NewRequest env method (env.DefaultURL ++ "/services/v5" ++ path ++
          (if params.Encode = "" then "" else "?" ++ params.Encode)) with
        | .error err => .error (.errorString ("failed to create request: " ++ err))
        | .ok request =>
          .ok { request with Header := request.Header.Add "X-TrackerToken" c.token }) := by
    unfold connection.CreateRequest
    by_cases hq : params.Encode = ""
    · simp only [hq, ne_eq, not_true_eq_false, if_false, if_true, string_append_empty_right]
    · simp only [hq, ne_eq, not_false_eq_true, if_true, if_false, String.append_assoc]
  rw [CreateRequest_eq] at h
  cases he : env.requestError (if method = "" then "GET" else method)
      (env.DefaultURL ++ "/services/v5" ++ path ++
        (if params.Encode = "" then "" else "?" ++ params.Encode)) with
  | some e => rw [he] at h; cases h
  | none =>
    rw [he] at h
    injection h with h
    subst h
    refine ⟨hcall, ?_, rfl, Header_Get_token c.token, rfl, rfl⟩
    unfold NewRequest
    simp only [he]

theorem CreateRequest_request_witness :
    (answering paginated).CreateRequest defaultEnv "GET" "/stories"
      (StoriesQuery.Query { Limit := 33 }) =
      .ok { Method := "GET",
            URL := "https://www.pivotaltracker.com/services/v5/stories?limit=33",
            Header := [("X-Trackertoken", ["api-token"])] } ∧
    Header.Get [("X-Trackertoken", ["api-token"])] "X-TrackerToken" = "api-token" :=
  ⟨by decide,
    (CreateRequest_request (answering paginated) defaultEnv "GET" "/stories"
      (StoriesQuery.Query { Limit := 33 })
      { Method := "GET",
        URL := "https://www.pivotaltracker.com/services/v5/stories?limit=33",
        Header := [("X-Trackertoken", ["api-token"])] } (by decide)).2.2.2.1⟩

/-- C11, as claimed, fails on the method: for the empty method, which
`http.NewRequest` takes as `GET`, the request is built and its method is
`GET`, not the given one. -/
theorem CreateRequest_empty_method :
    (answering paginated).CreateRequest defaultEnv "" "/me" Values.empty = .ok meRequest ∧
    meRequest.Method = "GET" ∧ meRequest.Method ≠ "" := by
  decide

/-! ## connection.Do: decoding, and the order of its checks -/

/-- The `Pagination` the four headers of a response stand for. -/
theorem Do_of_headers_ok {β : Type} (c : connection)
    (Decode : String → β → β × Option String) (request : Request) (out : Option β)
    (resp : Response) (hc : c.client request = .ok resp)
    (hs : resp.StatusCode = 200 ∨ resp.StatusCode = 201 ∨ resp.StatusCode = 204)
    (hT : headerOK (resp.Header.Get "X-Tracker-Pagination-Total"))
    (hO : headerOK (resp.Header.Get "X-Tracker-Pagination-Offset"))
    (hL : headerOK (resp.Header.Get "X-Tracker-Pagination-Limit"))
    (hR : headerOK (resp.Header.Get "X-Tracker-Pagination-Returned")) :
    c.Do Decode request out =
      ({ Total := headerValue (resp.Header.Get "X-Tracker-Pagination-Total"),
         Offset := headerValue (resp.Header.Get "X-Tracker-Pagination-Offset"),
         Limit := headerValue (resp.Header.Get "X-Tracker-Pagination-Limit"),
         Returned := headerValue (resp.Header.Get "X-Tracker-Pagination-Returned") },
       out.bind (fun object => (c.decodeResponse Decode resp object).2),
       out.map (fun object => (c.decodeResponse Decode resp object).1)) := by
  unfold connection.Do
  rw [sendRequest_success c request resp hc hs]
  simp only [paginationTotalHeader, paginationOffsetHeader, paginationLimitHeader,
    paginationReturnedHeader]
  rw [paginationField_ok resp _ hT, paginationField_ok resp _ hO,
    paginationField_ok resp _ hL, paginationField_ok resp _ hR]
  cases out <;> rfl

theorem decodeResponse_error {β : Type} (c : connection)
    (Decode : String → β → β × Option String) (resp : Response) (object : β) (e : String)
    (h : (Decode resp.Body object).2 = some e) :
    c.decodeResponse Decode resp object =
      ((Decode resp.Body object).1, some (.errorString ("invalid json response: " ++ e))) := by
  unfold connection.decodeResponse
  cases hd : Decode resp.Body object with
  | mk o err =>
    rw [hd] at h
    simp only at h
    subst h
    rfl

theorem decodeResponse_fst {β : Type} (c : connection)
    (Decode : String → β → β × Option String) (resp : Response) (object : β) :
    (c.decodeResponse Decode resp object).1 = (Decode resp.Body object).1 := by
  unfold connection.decodeResponse
  cases hd : Decode resp.Body object with
  | mk o err => cases err <;> rfl

theorem decodeResponse_ok {β : Type} (c : connection)
    (Decode : String → β → β × Option String) (resp : Response) (object : β)
    (h : (Decode resp.Body object).2 = none) :
    (c.decodeResponse Decode resp object).2 = resp.BodyClose := by
  unfold connection.decodeResponse
  cases hd : Decode resp.Body object with
  | mk o err =>
    rw [hd] at h
    simp only at h
    subst h
    rfl

/-- A failing pagination header makes `Do` return the zero `Pagination`, an
error and the untouched output. -/
theorem Do_zero_of_bad_header {β : Type} (c : connection)
    (Decode : String → β → β × Option String) (request : Request) (out : Option β)
    (resp : Response) (hc : c.client request = .ok resp)
    (hs : resp.StatusCode = 200 ∨ resp.StatusCode = 201 ∨ resp.StatusCode = 204)
    (header : String)
    (hmem : header ∈ ["X-Tracker-Pagination-Total", "X-Tracker-Pagination-Offset",
        "X-Tracker-Pagination-Limit", "X-Tracker-Pagination-Returned"])
    (e : Error) (hf : paginationField resp header = .error e) :
    ∃ err, c.Do Decode request out = ({}, some err, out) := by
  unfold connection.Do
  rw [sendRequest_success c request resp hc hs]
  simp only [paginationTotalHeader, paginationOffsetHeader, paginationLimitHeader,
    paginationReturnedHeader]
  simp only [List.mem_cons, List.mem_singleton, List.not_mem_nil, or_false] at hmem
  cases h1 : paginationField resp "X-Tracker-Pagination-Total" with
  | error e => exact ⟨e, rfl⟩
  | ok total =>
    cases h2 : paginationField resp "X-Tracker-Pagination-Offset" with
    | error e => exact ⟨e, rfl⟩
    | ok offset =>
      cases h3 : paginationField resp "X-Tracker-Pagination-Limit" with
      | error e => exact ⟨e, rfl⟩
      | ok limit =>
        cases h4 : paginationField resp "X-Tracker-Pagination-Returned" with
        | error e => exact ⟨e, rfl⟩
        | ok returned =>
          exfalso
          rcases hmem with h | h | h | h <;> subst h
          · rw [h1] at hf; cases hf
          · rw [h2] at hf; cases hf
          · rw [h3] at hf; cases hf
          · rw [h4] at hf; cases hf

/-- What `Do` returns for a response whose status is not 200, 201 or 204. -/
theorem Do_of_status_failure {β : Type} (c : connection)
    (Decode : String → β → β × Option String) (request : Request) (out : Option β)
    (resp : Response) (hc : c.client request = .ok resp)
    (h200 : resp.StatusCode ≠ 200) (h201 : resp.StatusCode ≠ 201)
    (h204 : resp.StatusCode ≠ 204) :
    c.Do Decode request out =
      ({}, some (if resp.StatusCode = 401 then .errorString "invalid token"
        else .errorString ("request failed (" ++ resp.Status ++ "): " ++ resp.Body)), out) := by
  by_cases h401 : resp.StatusCode = 401
  · rw [if_pos h401]
    exact Do_of_sendRequest_error c Decode request out _
      (sendRequest_unauthorized c request resp hc h401)
  · rw [if_neg h401]
    exact Do_of_sendRequest_error c Decode request out _
      (sendRequest_failed c request resp hc h200 h201 h204 h401)

theorem jsonDecode_none {β : Type} (syntaxError : String → String)
    (unmarshal : String → β → β × Option String) (body : String) (object : β)
    (h : readValue body = none) :
    jsonDecode syntaxError unmarshal body object = (object, some (syntaxError body)) := by
  unfold jsonDecode
  simp only [h]

theorem jsonDecode_some {β : Type} (syntaxError : String → String)
    (unmarshal : String → β → β × Option String) (body value : String) (object : β)
    (h : readValue body = some value) :
    jsonDecode syntaxError unmarshal body object = unmarshal value object := by
  unfold jsonDecode
  simp only [h]

/-- C12, as the code has it: for a response with status 200, 201 or 204 and
valid pagination headers, `Do` with a nil output succeeds whatever the body
and the decoder are; with an object as output it runs the JSON decoder, which
reads one value from the start of the body: when no value can be read there
`Do` fails with `invalid json response: ` followed by the decoder's error and
leaves the object alone, and when one can, the outcome is that of
unmarshalling that value, whatever follows it in the body. -/
theorem Do_decodes_iff_output {β : Type} (c : connection) (syntaxError : String → String)
    (unmarshal : String → β → β × Option String) (request : Request) (resp : Response)
    (hc : c.client request = .ok resp)
    (hs : resp.StatusCode = 200 ∨ resp.StatusCode = 201 ∨ resp.StatusCode = 204)
    (hT : headerOK (resp.Header.Get "X-Tracker-Pagination-Total"))
    (hO : headerOK (resp.Header.Get "X-Tracker-Pagination-Offset"))
    (hL : headerOK (resp.Header.Get "X-Tracker-Pagination-Limit"))
    (hR : headerOK (resp.Header.Get "X-Tracker-Pagination-Returned")) :
    (∀ Decode : String → β → β × Option String,
      (c.Do Decode request none).2 = (none, none)) ∧
    (∀ object, readValue resp.Body = none →
      (c.Do (jsonDecode syntaxError unmarshal) request (some object)).2 =
        (some (.errorString ("invalid json response: " ++ syntaxError resp.Body)),
          some object)) ∧
    (∀ object value, readValue resp.Body = some value →
      (c.Do (jsonDecode syntaxError unmarshal) request (some object)).2 =
        ((match (unmarshal value object).2 with
          | some e => some (.errorString ("invalid json response: " ++ e))
          | none => resp.BodyClose),
         some (unmarshal value object).1)) ∧
    (∀ (Decode : String → β → β × Option String) object e,
      (Decode resp.Body object).2 = some e →
      (c.Do Decode request (some object)).2.1 =
        some (.errorString ("invalid json response: " ++ e))) ∧
    readValue "" = none ∧ readValue "  " = none ∧ readValue "\x7b\"" = none ∧
    readValue "[1,]" = none ∧ readValue "nul" = none ∧ readValue "\"abc" = none ∧
    readValue "\x7b\"id\": 7, \"name\": \"a\\\"b\"\x7d\n" =
      some "\x7b\"id\": 7, \"name\": \"a\\\"b\"\x7d" ∧
    readValue " [1, -2.5e3, true, null] tail" = some " [1, -2.5e3, true, null]" ∧
    readValue "12x" = some "12" ∧
    validJSON "\x7b\"id\": 7\x7d\n" = true ∧ validJSON "12x" = false := by
  refine ⟨?_, ?_, ?_, ?_, by decide⟩
  · intro Decode
    rw [Do_of_headers_ok c Decode request none resp hc hs hT hO hL hR]
    rfl
  · intro object hn
    rw [Do_of_headers_ok c _ request (some object) resp hc hs hT hO hL hR]
    have hd := jsonDecode_none syntaxError unmarshal resp.Body object hn
    have he : (jsonDecode syntaxError unmarshal resp.Body object).2 =
        some (syntaxError resp.Body) := by rw [hd]
    simp [decodeResponse_error c _ resp object _ he, hd]
  · intro object value hv
    rw [Do_of_headers_ok c _ request (some object) resp hc hs hT hO hL hR]
    have hd := jsonDecode_some syntaxError unmarshal resp.Body value object hv
    cases hu : (unmarshal value object).2 with
    | some e =>
      have he : (jsonDecode syntaxError unmarshal resp.Body object).2 = some e := by
        rw [hd, hu]
      simp [decodeResponse_error c _ resp object _ he, hd]
    | none =>
      have he : (jsonDecode syntaxError unmarshal resp.Body object).2 = none := by
        rw [hd, hu]
      simp [decodeResponse_ok c _ resp object he, decodeResponse_fst, hd]
  · intro Decode object e he
    rw [Do_of_headers_ok c Decode request (some object) resp hc hs hT hO hL hR]
    simp [decodeResponse_error c Decode resp object e he]

theorem Do_decodes_iff_output_witness :
    (answering brokenBody).client meRequest = .ok brokenBody ∧
    readValue brokenBody.Body = none ∧
    ((answering brokenBody).Do
      (jsonDecode exampleSyntaxError (fun _ (object : Person) => (object, none)))
      meRequest (some ({} : Person))).2 =
      (some (.errorString "invalid json response: unexpected EOF"), some {}) :=
  ⟨rfl, by decide,
    (Do_decodes_iff_output (answering brokenBody) exampleSyntaxError
      (fun _ (object : Person) => (object, none)) meRequest brokenBody rfl
      (by decide) (by decide) (by decide) (by decide) (by decide)).2.1 ({} : Person)
      (by decide)⟩

/-- C12, as claimed, fails: the body of an empty object followed by `x` is not
well-formed JSON, yet the decoder reads the object and stops, so `Do` with an
object as output returns no error: with a `*json.RawMessage` as output, and,
through `Client.Me`, with a `Me`, for every unmarshalling that takes the empty
object without an error. -/
theorem Do_accepts_trailing_text :
    validJSON trailingBody.Body = false ∧
    readValue trailingBody.Body = some "\x7b\x7d" ∧
    (answering trailingBody).Do (jsonDecode exampleSyntaxError unmarshalRaw) meRequest
      (some "") = ({}, none, some "\x7b\x7d") ∧
    (∀ (syntaxError : String → String)
      (unmarshal : String → Person → Person × Option String),
      unmarshal "\x7b\x7d" {} = ({}, none) →
      Client.Me ⟨answering trailingBody⟩ defaultEnv (jsonDecode syntaxError unmarshal) =
        ({}, none)) := by
  refine ⟨by decide, by decide, by decide, ?_⟩
  intro syntaxError unmarshal hu
  have hr : readValue trailingBody.Body = some "\x7b\x7d" := by decide
  have hd : jsonDecode syntaxError unmarshal trailingBody.Body ({} : Person) = ({}, none) := by
    rw [jsonDecode_some syntaxError unmarshal _ _ _ hr, hu]
  have hcr : (answering trailingBody).CreateRequest defaultEnv "GET" "/me" Values.empty =
      .ok meRequest := by decide
  have hdo := Do_of_headers_ok (answering trailingBody) (jsonDecode syntaxError unmarshal)
    meRequest (some ({} : Person)) trailingBody rfl (by decide) (by decide) (by decide)
    (by decide) (by decide)
  unfold Client.Me
  simp only []
  rw [hcr]
  simp only []
  rw [hdo]
  have he : (jsonDecode syntaxError unmarshal trailingBody.Body ({} : Person)).2 = none := by
    rw [hd]
  simp [decodeResponse_ok _ _ trailingBody ({} : Person) he, decodeResponse_fst, hd]
  rfl

/-- C18: for a response whose status is not 200, 201 or 204, `Do` returns the
zero `Pagination`, the status error and the untouched output; the pagination
headers have no part in it: the same response with any other headers gives the
same result. -/
theorem Do_status_error_before_pagination {β : Type} (c : connection)
    (Decode : String → β → β × Option String) (request : Request) (out : Option β)
    (resp : Response) (hc : c.client request = .ok resp)
    (h200 : resp.StatusCode ≠ 200) (h201 : resp.StatusCode ≠ 201)
    (h204 : resp.StatusCode ≠ 204) :
    c.Do Decode request out =
      ({}, some (if resp.StatusCode = 401 then .errorString "invalid token"
        else .errorString ("request failed (" ++ resp.Status ++ "): " ++ resp.Body)), out) ∧
    (∀ (c2 : connection) (headers : Header),
      c2.client request = .ok { resp with Header := headers } →
      c2.Do Decode request out = c.Do Decode request out) := by
  refine ⟨Do_of_status_failure c Decode request out resp hc h200 h201 h204, ?_⟩
  intro c2 headers hc2
  rw [Do_of_status_failure c Decode request out resp hc h200 h201 h204,
    Do_of_status_failure c2 Decode request out { resp with Header := headers } hc2
      h200 h201 h204]

theorem Do_status_error_before_pagination_witness :
    (answering serverErrorPaginated).client meRequest = .ok serverErrorPaginated ∧
    serverErrorPaginated.Header.Get "X-Tracker-Pagination-Total" = "12" ∧
    serverErrorPaginated.Header.Get "X-Tracker-Pagination-Limit" = "x" ∧
    (answering serverErrorPaginated).Do failingDecode meRequest (some ({} : Person)) =
      ({}, some (.errorString "request failed (500 Internal Server Error): boom"),
        some {}) :=
  ⟨rfl, by decide, by decide,
    (Do_status_error_before_pagination (answering serverErrorPaginated) failingDecode
      meRequest (some ({} : Person)) serverErrorPaginated rfl (by decide) (by decide)
      (by decide)).1⟩

/-- C19, as the code has it: for a response with status 200, 201 or 204 in
which each pagination header is absent, empty or a decimal integer that fits
an `int`, an object as output and a body the decoder rejects, `Do` returns the
decode error together with the `Pagination` of the headers, which is not the
zero one when some header stands for a non-zero number; on a status failure
and on a failing header it returns the zero `Pagination`. -/
theorem Do_decode_error_keeps_pagination {β : Type} (c : connection)
    (Decode : String → β → β × Option String) (request : Request) (object : β)
    (resp : Response) (e : String) (hc : c.client request = .ok resp)
    (hs : resp.StatusCode = 200 ∨ resp.StatusCode = 201 ∨ resp.StatusCode = 204)
    (hT : headerOK (resp.Header.Get "X-Tracker-Pagination-Total"))
    (hO : headerOK (resp.Header.Get "X-Tracker-Pagination-Offset"))
    (hL : headerOK (resp.Header.Get "X-Tracker-Pagination-Limit"))
    (hR : headerOK (resp.Header.Get "X-Tracker-Pagination-Returned"))
    (he : (Decode resp.Body object).2 = some e) :
    c.Do Decode request (some object) =
      ({ Total := headerValue (resp.Header.Get "X-Tracker-Pagination-Total"),
         Offset := headerValue (resp.Header.Get "X-Tracker-Pagination-Offset"),
         Limit := headerValue (resp.Header.Get "X-Tracker-Pagination-Limit"),
         Returned := headerValue (resp.Header.Get "X-Tracker-Pagination-Returned") },
       some (.errorString ("invalid json response: " ++ e)),
       some (Decode resp.Body object).1) ∧
    ((headerValue (resp.Header.Get "X-Tracker-Pagination-Total") ≠ 0 ∨
      headerValue (resp.Header.Get "X-Tracker-Pagination-Offset") ≠ 0 ∨
      headerValue (resp.Header.Get "X-Tracker-Pagination-Limit") ≠ 0 ∨
      headerValue (resp.Header.Get "X-Tracker-Pagination-Returned") ≠ 0) →
      (c.Do Decode request (some object)).1 ≠ {}) ∧
    (∀ (c2 : connection) (resp2 : Response), c2.client request = .ok resp2 →
      resp2.StatusCode ≠ 200 → resp2.StatusCode ≠ 201 → resp2.StatusCode ≠ 204 →
      (c2.Do Decode request (some object)).1 = {}) ∧
    (∀ (c2 : connection) (resp2 : Response), c2.client request = .ok resp2 →
      (resp2.StatusCode = 200 ∨ resp2.StatusCode = 201 ∨ resp2.StatusCode = 204) →
      (∃ header ∈ ["X-Tracker-Pagination-Total", "X-Tracker-Pagination-Offset",
          "X-Tracker-Pagination-Limit", "X-Tracker-Pagination-Returned"],
        ∃ err, paginationField resp2 header = .error err) →
      (c2.Do Decode request (some object)).1 = {}) := by
  have hdo := Do_of_headers_ok c Decode request (some object) resp hc hs hT hO hL hR
  refine ⟨?_, ?_, ?_, ?_⟩
  · rw [hdo]
    simp [decodeResponse_error c Decode resp object e he]
  · intro hne hzero
    rw [hdo] at hzero
    simp only at hzero
    injection hzero with h1 h2 h3 h4
    rcases hne with h | h | h | h
    · exact h h1
    · exact h h2
    · exact h h3
    · exact h h4
  · intro c2 resp2 hc2 h200 h201 h204
    rw [Do_of_status_failure c2 Decode request (some object) resp2 hc2 h200 h201 h204]
  · intro c2 resp2 hc2 hs2 hbad
    obtain ⟨header, hmem, err, hf⟩ := hbad
    obtain ⟨err2, h2⟩ :=
      Do_zero_of_bad_header c2 Decode request (some object) resp2 hc2 hs2 header hmem err hf
    rw [h2]

theorem Do_decode_error_keeps_pagination_witness :
    (answering brokenBody).client meRequest = .ok brokenBody ∧
    (answering brokenBody).Do failingDecode meRequest (some ({} : Person)) =
      ({ Total := 7 }, some (.errorString "invalid json response: EOF"), some {}) :=
  ⟨rfl,
    (Do_decode_error_keeps_pagination (answering brokenBody) failingDecode meRequest
      ({} : Person) brokenBody "EOF" rfl (by decide) (by decide) (by decide) (by decide)
      (by decide) rfl).1⟩

/-- C19, as claimed, fails: in a 200 response whose only pagination header,
`Total`, is the decimal integer `9223372036854775808`, with an object as
output and a body the decoder rejects, `Do` does not return the decode error
with the `Pagination` of the header: it returns the error of `Atoi` and the
zero `Pagination`. -/
theorem decode_error_lost_on_huge_header :
    hugeTotalBrokenBody.StatusCode = 200 ∧
    hugeTotalBrokenBody.Header.Get "X-Tracker-Pagination-Total" = "9223372036854775808" ∧
    isIntegerText "9223372036854775808" = true ∧
    (failingDecode hugeTotalBrokenBody.Body ({} : Person)).2 = some "EOF" ∧
    (answering hugeTotalBrokenBody).Do failingDecode meRequest (some ({} : Person)) =
      ({}, some (.numError "Atoi" "9223372036854775808" "value out of range"), some {}) ∧
    ((answering hugeTotalBrokenBody).Do failingDecode meRequest (some ({} : Person))).2.1 ≠
      some (.errorString "invalid json response: EOF") ∧
    ((answering hugeTotalBrokenBody).Do failingDecode meRequest (some ({} : Person))).1.Total ≠
      integerValue "9223372036854775808" := by
  decide

/-- C20: the encoding is not injective on the filter list: `["a", "b"]` and
`["a b"]` encode to the same string, and the filter list `[""]` still emits
the key, as `filter=`. -/
theorem StoriesQuery_filter_not_injective :
    (["a", "b"] : List String) ≠ ["a b"] ∧
    Values.Encode (StoriesQuery.Query { Filter := ["a", "b"] }) =
      Values.Encode (StoriesQuery.Query { Filter := ["a b"] }) ∧
    Values.Encode (StoriesQuery.Query { Filter := ["a", "b"] }) = "filter=a+b" ∧
    ([""] : List String) ≠ [] ∧
    Values.lookup (StoriesQuery.Query { Filter := [""] }) "filter" = some [""] ∧
    Values.Encode (StoriesQuery.Query { Filter := [""] }) = "filter=" := by
  decide

/-! ## project_client.go -/

theorem Header_Add_contentType (token : String) :
    Header.Add [("X-Trackertoken", [token])] "Content-Type" "application/json" =
      [("X-Trackertoken", [token]), ("Content-Type", ["application/json"])] := by
  have e : CanonicalMIMEHeaderKey "Content-Type" = "Content-Type" := by decide
  simp [Header.Add, e, Header.append]

/-- What `ProjectClient.createRequest` returns for a non-empty method that
`http.NewRequest` accepts with the URL of the project path. -/
theorem ProjectClient_createRequest_ok (p : ProjectClient) (env : Env) (method path : String)
    (hm : method ≠ "")
    (h : env.requestError method
      (env.DefaultURL ++ "/services/v5/projects/" ++ sprintInt p.id ++ path) = none) :
    p.createRequest env method path =
      .ok { Method := method
            URL := env.DefaultURL ++ "/services/v5/projects/" ++ sprintInt p.id ++ path
            Header := [("X-Trackertoken", [p.conn.token])] } := by
  have hu : env.DefaultURL ++ "/services/v5" ++ ("/projects/" ++ sprintInt p.id ++ path) =
      env.DefaultURL ++ "/services/v5/projects/" ++ sprintInt p.id ++ path := by
    have e : "/services/v5/projects/" = "/services/v5" ++ "/projects/" := by decide
    rw [e]
    simp only [String.append_assoc]
  have he : Values.Encode Values.empty = "" := rfl
  unfold ProjectClient.createRequest
  rw [CreateRequest_eq]
  simp only [he, if_true, string_append_empty_right, hm, if_false, hu, h]

/-- C13, as the code has it: `Stories` hands one request to the HTTP client,
a GET whose URL is the base URL, `/services/v5/projects/<p>/stories?` and the
encoded query, the `?` being there also when the encoded query is empty, and
returns what `Do` makes of the response. -/
theorem Stories_request (p : ProjectClient) (env : Env)
    (Decode : String → List Story → List Story × Option String) (query : StoriesQuery)
    (h : env.requestError "GET"
      (env.DefaultURL ++ "/services/v5/projects/" ++ sprintInt p.id ++
        ("/stories?" ++ query.Query.Encode)) = none) :
    p.Stories env Decode query =
      ((((p.conn.Do Decode
            { Method := "GET"
              URL := env.DefaultURL ++ "/services/v5/projects/" ++ sprintInt p.id ++
                ("/stories?" ++ query.Query.Encode)
              Header := [("X-Trackertoken", [p.conn.token])] } (some [])).2.2).getD [],
        (p.conn.Do Decode
            { Method := "GET"
              URL := env.DefaultURL ++ "/services/v5/projects/" ++ sprintInt p.id ++
                ("/stories?" ++ query.Query.Encode)
              Header := [("X-Trackertoken", [p.conn.token])] } (some [])).2.1),
       [{ Method := "GET"
          URL := env.DefaultURL ++ "/services/v5/projects/" ++ sprintInt p.id ++
            ("/stories?" ++ query.Query.Encode)
          Header := [("X-Trackertoken", [p.conn.token])] }]) ∧
    Values.Encode (StoriesQuery.Query {}) = "" ∧
    Values.Encode (StoriesQuery.Query { Offset := 1234 }) = "offset=1234" := by
  refine ⟨?_, by decide, by decide⟩
  unfold ProjectClient.Stories
  simp only []
  rw [ProjectClient_createRequest_ok p env "GET" _ (by decide) h]
  rfl

theorem Stories_request_witness :
    ((project99 paginated).Stories defaultEnv failingDecode { Offset := 1234 }).2 =
      [{ Method := "GET",
         URL := "https://www.pivotaltracker.com/services/v5/projects/99/stories?offset=1234",
         Header := [("X-Trackertoken", ["api-token"])] }] :=
  congrArg Prod.snd
    (Stories_request (project99 paginated) defaultEnv failingDecode { Offset := 1234 }
      rfl).1

/-- C13, as claimed, fails: for the zero-valued query, whose encoding is
empty, the URL of the request `Stories` sends ends in `/stories?`: the `?` is
there. -/
theorem Stories_zero_query_has_question_mark :
    Values.Encode (StoriesQuery.Query {}) = "" ∧
    ((project99 paginated).Stories defaultEnv failingDecode {}).2 =
      [{ Method := "GET",
         URL := "https://www.pivotaltracker.com/services/v5/projects/99/stories?",
         Header := [("X-Trackertoken", ["api-token"])] }] ∧
    "https://www.pivotaltracker.com/services/v5/projects/99/stories?" ≠
      "https://www.pivotaltracker.com/services/v5/projects/99/stories" := by
  decide

/-- C14: when the request can be built, `DeliverStory` hands one request to
the HTTP client, a PUT to `/services/v5/projects/<p>/stories/<s>` with the
body `{"current_state":"delivered"}` and the content type `application/json`,
runs `Do` on it with a nil output and returns the error of that `Do`. -/
theorem DeliverStory_request (p : ProjectClient) (env : Env) (storyId : Int)
    (h : env.requestError "PUT"
      (env.DefaultURL ++ "/services/v5/projects/" ++ sprintInt p.id ++
        ("/stories/" ++ sprintInt storyId)) = none) :
    p.DeliverStory env storyId =
      ((p.conn.Do noDecode
          { Method := "PUT"
            URL := env.DefaultURL ++ "/services/v5/projects/" ++ sprintInt p.id ++
              ("/stories/" ++ sprintInt storyId)
            Header := [("X-Trackertoken", [p.conn.token]),
              ("Content-Type", ["application/json"])]
            Body := some deliveredBody } none).2.1,
       [{ Method := "PUT"
          URL := env.DefaultURL ++ "/services/v5/projects/" ++ sprintInt p.id ++
            ("/stories/" ++ sprintInt storyId)
          Header := [("X-Trackertoken", [p.conn.token]),
            ("Content-Type", ["application/json"])]
          Body := some deliveredBody }]) ∧
    deliveredBody = "\x7b\"current_state\":\"delivered\"\x7d" ∧
    Header.Get [("X-Trackertoken", [p.conn.token]), ("Content-Type", ["application/json"])]
      "Content-Type" = "application/json" ∧
    ((p.DeliverStory env storyId).1 = none ↔
      (p.conn.Do noDecode
          { Method := "PUT"
            URL := env.DefaultURL ++ "/services/v5/projects/" ++ sprintInt p.id ++
              ("/stories/" ++ sprintInt storyId)
            Header := [("X-Trackertoken", [p.conn.token]),
              ("Content-Type", ["application/json"])]
            Body := some deliveredBody } none).2.1 = none) := by
  have hd : p.DeliverStory env storyId =
      ((p.conn.Do noDecode
          { Method := "PUT"
            URL := env.DefaultURL ++ "/services/v5/projects/" ++ sprintInt p.id ++
              ("/stories/" ++ sprintInt storyId)
            Header := [("X-Trackertoken", [p.conn.token]),
              ("Content-Type", ["application/json"])]
            Body := some deliveredBody } none).2.1,
       [{ Method := "PUT"
          URL := env.DefaultURL ++ "/services/v5/projects/" ++ sprintInt p.id ++
            ("/stories/" ++ sprintInt storyId)
          Header := [("X-Trackertoken", [p.conn.token]),
            ("Content-Type", ["application/json"])]
          Body := some deliveredBody }]) := by
    unfold ProjectClient.DeliverStory
    simp only []
    rw [ProjectClient_createRequest_ok p env "PUT" _ (by decide) h]
    simp only [ProjectClient.addJSONBody, Header_Add_contentType, connection.DoLogged]
  refine ⟨hd, by decide, ?_, ?_⟩
  · have e : CanonicalMIMEHeaderKey "Content-Type" = "Content-Type" := by decide
    have n : ¬ "X-Trackertoken" = "Content-Type" := by decide
    simp [Header.Get, e, Values.lookup, n]
  · rw [hd]

theorem DeliverStory_request_witness :
    (project99 paginated).DeliverStory defaultEnv 15225523 =
      (none,
       [{ Method := "PUT",
          URL := "https://www.pivotaltracker.com/services/v5/projects/99/stories/15225523",
          Header := [("X-Trackertoken", ["api-token"]),
            ("Content-Type", ["application/json"])],
          Body := some deliveredBody }]) :=
  (DeliverStory_request (project99 paginated) defaultEnv 15225523 rfl).1.trans (by decide)

/-- C15: when both requests can be built, `DeliverStoryWithComment` first
sends the delivery PUT; when that fails it returns the PUT's error, having
sent that one request; when it succeeds it sends the comment POST to
`.../stories/<id>/comments` and returns what that request gives, error or
success, having sent the two requests in that order and no other. The body of
the POST is, for every comment text, the JSON object with the escaped text
under `text`, which is well-formed JSON. -/
theorem DeliverStoryWithComment_requests (p : ProjectClient) (env : Env) (storyId : Int)
    (comment : String)
    (hput : env.requestError "PUT"
      (env.DefaultURL ++ "/services/v5/projects/" ++ sprintInt p.id ++
        ("/stories/" ++ sprintInt storyId)) = none)
    (hpost : env.requestError "POST"
      (env.DefaultURL ++ "/services/v5/projects/" ++ sprintInt p.id ++
        ("/stories/" ++ sprintInt storyId ++ "/comments")) = none) :
    (∀ err,
      (p.conn.Do noDecode
          { Method := "PUT"
            URL := env.DefaultURL ++ "/services/v5/projects/" ++ sprintInt p.id ++
              ("/stories/" ++ sprintInt storyId)
            Header := [("X-Trackertoken", [p.conn.token]),
              ("Content-Type", ["application/json"])]
            Body := some deliveredBody } none).2.1 = some err →
      p.DeliverStoryWithComment env storyId comment =
        (some err,
         [{ Method := "PUT"
            URL := env.DefaultURL ++ "/services/v5/projects/" ++ sprintInt p.id ++
              ("/stories/" ++ sprintInt storyId)
            Header := [("X-Trackertoken", [p.conn.token]),
              ("Content-Type", ["application/json"])]
            Body := some deliveredBody }])) ∧
    ((p.conn.Do noDecode
          { Method := "PUT"
            URL := env.DefaultURL ++ "/services/v5/projects/" ++ sprintInt p.id ++
              ("/stories/" ++ sprintInt storyId)
            Header := [("X-Trackertoken", [p.conn.token]),
              ("Content-Type", ["application/json"])]
            Body := some deliveredBody } none).2.1 = none →
      p.DeliverStoryWithComment env storyId comment =
        ((p.conn.Do noDecode
            { Method := "POST"
              URL := env.DefaultURL ++ "/services/v5/projects/" ++ sprintInt p.id ++
                ("/stories/" ++ sprintInt storyId ++ "/comments")
              Header := [("X-Trackertoken", [p.conn.token]),
                ("Content-Type", ["application/json"])]
              Body := some (commentJSON comment) } none).2.1,
         [{ Method := "PUT"
            URL := env.DefaultURL ++ "/services/v5/projects/" ++ sprintInt p.id ++
              ("/stories/" ++ sprintInt storyId)
            Header := [("X-Trackertoken", [p.conn.token]),
              ("Content-Type", ["application/json"])]
            Body := some deliveredBody },
          { Method := "POST"
            URL := env.DefaultURL ++ "/services/v5/projects/" ++ sprintInt p.id ++
              ("/stories/" ++ sprintInt storyId ++ "/comments")
            Header := [("X-Trackertoken", [p.conn.token]),
              ("Content-Type", ["application/json"])]
            Body := some (commentJSON comment) }])) ∧
    commentJSON comment = "\x7b\"text\":" ++ jsonString comment ++ "\x7d" ∧
    validJSON (commentJSON comment) = true ∧
    commentJSON "some delive\"\x7dry comment with tricky text" =
      "\x7b\"text\":\"some delive\\\"\x7dry comment with tricky text\"\x7d" ∧
    commentJSON "" = "\x7b\"text\":\"\"\x7d" := by
  have hd : p.DeliverStory env storyId =
      ((p.conn.Do noDecode
          { Method := "PUT"
            URL := env.DefaultURL ++ "/services/v5/projects/" ++ sprintInt p.id ++
              ("/stories/" ++ sprintInt storyId)
            Header := [("X-Trackertoken", [p.conn.token]),
              ("Content-Type", ["application/json"])]
            Body := some deliveredBody } none).2.1,
       [{ Method := "PUT"
          URL := env.DefaultURL ++ "/services/v5/projects/" ++ sprintInt p.id ++
            ("/stories/" ++ sprintInt storyId)
          Header := [("X-Trackertoken", [p.conn.token]),
            ("Content-Type", ["application/json"])]
          Body := some deliveredBody }]) := by
    unfold ProjectClient.DeliverStory
    simp only []
    rw [ProjectClient_createRequest_ok p env "PUT" _ (by decide) hput]
    simp only [ProjectClient.addJSONBody, Header_Add_contentType, connection.DoLogged]
  refine ⟨?_, ?_, rfl, commentJSON_valid comment, by decide, by decide⟩
  · intro err he
    unfold ProjectClient.DeliverStoryWithComment
    rw [hd, he]
  · intro he
    unfold ProjectClient.DeliverStoryWithComment
    rw [hd, he]
    simp only []
    rw [ProjectClient_createRequest_ok p env "POST" _ (by decide) hpost]
    simp only [ProjectClient.addJSONBody, Header_Add_contentType, connection.DoLogged,
      List.singleton_append]

theorem DeliverStoryWithComment_requests_witness :
    (project99 paginated).DeliverStoryWithComment defaultEnv 15225523 "some comment" =
      (none,
       [{ Method := "PUT",
          URL := "https://www.pivotaltracker.com/services/v5/projects/99/stories/15225523",
          Header := [("X-Trackertoken", ["api-token"]),
            ("Content-Type", ["application/json"])],
          Body := some deliveredBody },
        { Method := "POST",
          URL :=
            "https://www.pivotaltracker.com/services/v5/projects/99/stories/15225523/comments",
          Header := [("X-Trackertoken", ["api-token"]),
            ("Content-Type", ["application/json"])],
          Body := some "\x7b\"text\":\"some comment\"\x7d" }]) ∧
    (project99 serverErrorBody).DeliverStoryWithComment defaultEnv 15225523 "some comment" =
      (some (.errorString "request failed (500 Internal Server Error): boom"),
       [{ Method := "PUT",
          URL := "https://www.pivotaltracker.com/services/v5/projects/99/stories/15225523",
          Header := [("X-Trackertoken", ["api-token"]),
            ("Content-Type", ["application/json"])],
          Body := some deliveredBody }]) ∧
    (ProjectClient.mk 99 deliverOnly).DeliverStoryWithComment defaultEnv 15225523 "" =
      (some (.errorString "request failed (500 Internal Server Error): boom"),
       [{ Method := "PUT",
          URL := "https://www.pivotaltracker.com/services/v5/projects/99/stories/15225523",
          Header := [("X-Trackertoken", ["api-token"]),
            ("Content-Type", ["application/json"])],
          Body := some deliveredBody },
        { Method := "POST",
          URL :=
            "https://www.pivotaltracker.com/services/v5/projects/99/stories/15225523/comments",
          Header := [("X-Trackertoken", ["api-token"]),
            ("Content-Type", ["application/json"])],
          Body := some "\x7b\"text\":\"\"\x7d" }]) ∧
    commentJSON "some delive\"\x7dry comment with tricky text" =
      "\x7b\"text\":\"some delive\\\"\x7dry comment with tricky text\"\x7d" :=
  ⟨((DeliverStoryWithComment_requests (project99 paginated) defaultEnv 15225523
      "some comment" rfl rfl).2.1 (by decide)).trans (by decide),
    ((DeliverStoryWithComment_requests (project99 serverErrorBody) defaultEnv 15225523
      "some comment" rfl rfl).1
      (.errorString "request failed (500 Internal Server Error): boom")
      (by decide)).trans (by decide),
    ((DeliverStoryWithComment_requests (ProjectClient.mk 99 deliverOnly) defaultEnv
      15225523 "" rfl rfl).2.1 (by decide)).trans (by decide),
    by decide⟩

/-! ## client.go -/

theorem CreateRequest_nil_ok (c : connection) (env : Env) (method path url : String)
    (hm : method ≠ "") (hu : env.DefaultURL ++ "/services/v5" ++ path = url)
    (h : env.requestError method url = none) :
    c.CreateRequest env method path Values.empty =
      .ok { Method := method, URL := url, Header := [("X-Trackertoken", [c.token])] } := by
  have he : Values.Encode Values.empty = "" := rfl
  rw [CreateRequest_eq]
  simp only [he, if_true, string_append_empty_right, hm, if_false, hu, h]

theorem CreateRequest_nil_error (c : connection) (env : Env) (method path url e : String)
    (hm : method ≠ "") (hu : env.DefaultURL ++ "/services/v5" ++ path = url)
    (h : env.requestError method url = some e) :
    c.CreateRequest env method path Values.empty =
      .error (.errorString ("failed to create request: " ++ e)) := by
  have he : Values.Encode Values.empty = "" := rfl
  rw [CreateRequest_eq]
  simp only [he, if_true, string_append_empty_right, hm, if_false, hu, h]

theorem meURL_eq (base : String) : base ++ "/services/v5" ++ "/me" = base ++ "/services/v5/me" := by
  have e : "/services/v5/me" = "/services/v5" ++ "/me" := by decide
  rw [e, String.append_assoc]

theorem storyURL_eq (base : String) (n : Int) :
    base ++ "/services/v5" ++ ("/stories/" ++ sprintInt n) =
      base ++ "/services/v5/stories/" ++ sprintInt n := by
  have e : "/services/v5/stories/" = "/services/v5" ++ "/stories/" := by decide
  rw [e]
  simp only [String.append_assoc]

theorem sendRequest_transport_error (c : connection) (request : Request) (e : String)
    (h : c.client request = .error e) :
    c.sendRequest request = .error (.errorString ("failed to make request: " ++ e)) := by
  unfold connection.sendRequest
  rw [h]

/-- C16: when the request can be built, `Client.Me` runs `Do` on the request
`GET <base>/services/v5/me` and `Client.Story(n)` on
`GET <base>/services/v5/stories/<n>`, both without query and with the token
as only header; `InProject(p)` is the project client with id `p` and the same
connection, whatever the environment and the HTTP client are. -/
theorem Client_requests (c : Client) (env : Env)
    (DecodeMe : String → Tracker.Me → Tracker.Me × Option String)
    (DecodeStory : String → Tracker.Story → Tracker.Story × Option String) (n p : Int)
    (hme : env.requestError "GET" (env.DefaultURL ++ "/services/v5/me") = none)
    (hstory : env.requestError "GET"
      (env.DefaultURL ++ "/services/v5/stories/" ++ sprintInt n) = none) :
    c.conn.CreateRequest env "GET" "/me" Values.empty =
      .ok { Method := "GET", URL := env.DefaultURL ++ "/services/v5/me",
            Header := [("X-Trackertoken", [c.conn.token])] } ∧
    c.Me env DecodeMe =
      (((c.conn.Do DecodeMe
          { Method := "GET", URL := env.DefaultURL ++ "/services/v5/me",
            Header := [("X-Trackertoken", [c.conn.token])] } (some {})).2.2).getD {},
       (c.conn.Do DecodeMe
          { Method := "GET", URL := env.DefaultURL ++ "/services/v5/me",
            Header := [("X-Trackertoken", [c.conn.token])] } (some {})).2.1) ∧
    c.conn.CreateRequest env "GET" ("/stories/" ++ sprintInt n) Values.empty =
      .ok { Method := "GET", URL := env.DefaultURL ++ "/services/v5/stories/" ++ sprintInt n,
            Header := [("X-Trackertoken", [c.conn.token])] } ∧
    c.Story env DecodeStory n =
      (match c.conn.Do DecodeStory
          { Method := "GET", URL := env.DefaultURL ++ "/services/v5/stories/" ++ sprintInt n,
            Header := [("X-Trackertoken", [c.conn.token])] } (some {}) with
        | (_, some err, _) => ({}, some err)
        | (_, none, object) => (object.getD {}, none)) ∧
    Header.Get [("X-Trackertoken", [c.conn.token])] "X-TrackerToken" = c.conn.token ∧
    c.InProject p = { id := p, conn := c.conn } := by
  have h1 := CreateRequest_nil_ok c.conn env "GET" "/me" _ (by decide) (meURL_eq _) hme
  have h2 := CreateRequest_nil_ok c.conn env "GET" ("/stories/" ++ sprintInt n) _
    (by decide) (storyURL_eq _ n) hstory
  refine ⟨h1, ?_, h2, ?_, Header_Get_token _, rfl⟩
  · unfold Client.Me
    simp only []
    rw [h1]
  · unfold Client.Story
    simp only []
    rw [h2]

theorem Client_requests_witness :
    (Client.mk (answering paginated)).conn.CreateRequest defaultEnv "GET" "/me" Values.empty =
      .ok meRequest ∧
    (Client.mk (answering paginated)).conn.CreateRequest defaultEnv "GET"
      ("/stories/" ++ sprintInt 560) Values.empty = .ok storyRequest :=
  ⟨(Client_requests (Client.mk (answering paginated)) defaultEnv failingDecode failingDecode
      560 99 rfl rfl).1,
    (Client_requests (Client.mk (answering paginated)) defaultEnv failingDecode failingDecode
      560 99 rfl rfl).2.2.1⟩

/-- C17: when `http.NewRequest` refuses the URL, `CreateRequest` returns the
error `failed to create request: ` followed by the library's error, and `Me`
and `Story` return that error, whatever the HTTP client is; when the HTTP
client fails, `sendRequest` and `Do` return `failed to make request: `
followed by the client's error, and so do `Me` and `Story`. -/
theorem request_errors_propagate (c : Client) (env : Env)
    (DecodeMe : String → Tracker.Me → Tracker.Me × Option String)
    (DecodeStory : String → Tracker.Story → Tracker.Story × Option String) (n : Int) :
    (∀ (method path : String) (params : Values) (e : String),
      env.requestError (if method = "" then "GET" else method)
        (env.DefaultURL ++ "/services/v5" ++ path ++
          (if params.Encode = "" then "" else "?" ++ params.Encode)) = some e →
      c.conn.CreateRequest env method path params =
        .error (.errorString ("failed to create request: " ++ e))) ∧
    (∀ e, env.requestError "GET" (env.DefaultURL ++ "/services/v5/me") = some e →
      ∀ c2 : Client, c2.Me env DecodeMe =
        ({}, some (.errorString ("failed to create request: " ++ e)))) ∧
    (∀ e, env.requestError "GET"
        (env.DefaultURL ++ "/services/v5/stories/" ++ sprintInt n) = some e →
      ∀ c2 : Client, c2.Story env DecodeStory n =
        ({}, some (.errorString ("failed to create request: " ++ e)))) ∧
    (∀ (request : Request) (e : String), c.conn.client request = .error e →
      c.conn.sendRequest request = .error (.errorString ("failed to make request: " ++ e)) ∧
      ∀ out : Option Tracker.Me, c.conn.Do DecodeMe request out =
        ({}, some (.errorString ("failed to make request: " ++ e)), out)) ∧
    (∀ e, env.requestError "GET" (env.DefaultURL ++ "/services/v5/me") = none →
      c.conn.client
        { Method := "GET", URL := env.DefaultURL ++ "/services/v5/me",
          Header := [("X-Trackertoken", [c.conn.token])] } = .error e →
      c.Me env DecodeMe = ({}, some (.errorString ("failed to make request: " ++ e)))) ∧
    (∀ e, env.requestError "GET"
        (env.DefaultURL ++ "/services/v5/stories/" ++ sprintInt n) = none →
      c.conn.client
        { Method := "GET", URL := env.DefaultURL ++ "/services/v5/stories/" ++ sprintInt n,
          Header := [("X-Trackertoken", [c.conn.token])] } = .error e →
      c.Story env DecodeStory n =
        ({}, some (.errorString ("failed to make request: " ++ e)))) := by
  refine ⟨?_, ?_, ?_, ?_, ?_, ?_⟩
  · intro method path params e h
    rw [CreateRequest_eq, h]
  · intro e h c2
    unfold Client.Me
    simp only []
    rw [CreateRequest_nil_error c2.conn env "GET" "/me" _ e (by decide) (meURL_eq _) h]
  · intro e h c2
    unfold Client.Story
    simp only []
    rw [CreateRequest_nil_error c2.conn env "GET" ("/stories/" ++ sprintInt n) _ e
      (by decide) (storyURL_eq _ n) h]
  · intro request e h
    have hs := sendRequest_transport_error c.conn request e h
    exact ⟨hs, fun out => Do_of_sendRequest_error c.conn DecodeMe request out _ hs⟩
  · intro e h hc
    unfold Client.Me
    simp only []
    rw [CreateRequest_nil_ok c.conn env "GET" "/me" _ (by decide) (meURL_eq _) h]
    simp only []
    rw [Do_of_sendRequest_error c.conn DecodeMe _ _ _
      (sendRequest_transport_error c.conn _ e hc)]
    rfl
  · intro e h hc
    unfold Client.Story
    simp only []
    rw [CreateRequest_nil_ok c.conn env "GET" ("/stories/" ++ sprintInt n) _
      (by decide) (storyURL_eq _ n) h]
    simp only []
    rw [Do_of_sendRequest_error c.conn DecodeStory _ _ _
      (sendRequest_transport_error c.conn _ e hc)]

theorem request_errors_propagate_witness :
    (Client.mk (answering paginated)).Me brokenEnv failingDecode =
      ({}, some (.errorString "failed to create request: invalid URL escape")) ∧
    (Client.mk refusing).Me defaultEnv failingDecode =
      ({}, some (.errorString "failed to make request: connection refused")) ∧
    (Client.mk refusing).Story defaultEnv failingDecode 560 =
      ({}, some (.errorString "failed to make request: connection refused")) :=
  ⟨(request_errors_propagate (Client.mk (answering paginated)) brokenEnv failingDecode
      failingDecode 560).2.1 "invalid URL escape" rfl (Client.mk (answering paginated)),
    (request_errors_propagate (Client.mk refusing) defaultEnv failingDecode
      failingDecode 560).2.2.2.2.1 "connection refused" rfl rfl,
    (request_errors_propagate (Client.mk refusing) defaultEnv failingDecode
      failingDecode 560).2.2.2.2.2 "connection refused" rfl rfl⟩

end Tracker
